import Mathlib

/-!
Verification of the bio2bel_drugbank XML extraction and normalization pipeline.

The development shallowly embeds the parts of `parser.py`, `manager.py` and
`models.py` that the verified properties concern:

* an XML element model together with the subset of the ElementTree path
  language the parser uses (`findall` / `findtext` / `find` / attribute get);
* `extract_drug_info`, `extract_protein_info` and their helpers;
* the `Manager.get_or_create_*` reconciliation layer with its run-scoped
  caches, committed store and pending session writes;
* `Manager._create_drug_protein_interaction` and the populate inner loop;
* the graph projection `DrugProteinInteraction._add_to_graph` /
  `add_to_graph` and the node serializers `Drug.as_bel`, `Protein.as_bel`,
  `Protein.as_bel_hgnc`;
* `Manager.get_protein_by_hgnc_id`, `Manager.get_hgnc_id_to_drugs` and
  `Manager.get_drug_to_hgnc_ids`.

Python exceptions are modelled with `Except PyErr`; machine details that the
source delegates to external collaborators (the SQL engine, the logging
module, the pybel graph library) are modelled through the small interfaces
the source actually uses.  In the source every DrugBank tag name carries the
fixed XML namespace prefix given by the URL http://www.drugbank.ca wrapped in
braces; the prefix is uniform on every tag, so the embedding elides it.
-/

namespace DrugBank

/-- Python exception classes that the embedded code can raise. -/
inductive PyErr where
  | typeError
  | valueError
  | attributeError
  | keyError
  | assertionError
  | multipleResultsFound
deriving DecidableEq, Repr

/-- `xml.etree` element: tag, attributes, text and child elements.
`text = none` models a Python `None` text, `some ""` an empty text. -/
inductive Xml where
  | elem (tag : String) (attrib : List (String × String)) (text : Option String)
      (children : List Xml)

def Xml.tagName : Xml → String
  | .elem t _ _ _ => t

def Xml.attrib : Xml → List (String × String)
  | .elem _ a _ _ => a

def Xml.text : Xml → Option String
  | .elem _ _ t _ => t

def Xml.children : Xml → List Xml
  | .elem _ _ _ c => c

/-- One step of the ElementTree path subset used by the parser:
a plain tag, a tag with an attribute predicate, or a tag with a
child-text predicate. -/
inductive PathStep where
  | tag (t : String)
  | tagAttr (t : String) (key val : String)
  | tagChildText (t : String) (child val : String)

/-- Whether an element matches one path step (ElementPath predicate
semantics; the child-text predicate compares the text content of the child). -/
def stepMatches (s : PathStep) (x : Xml) : Bool :=
  match s with
  | .tag t => x.tagName == t
  | .tagAttr t k v => x.tagName == t && x.attrib.lookup k == some v
  | .tagChildText t c v =>
      x.tagName == t && x.children.any (fun e => e.tagName == c && e.text.getD "" == v)

/-- `Element.findall(path)`: walk the path one step at a time, keeping
document order.  Each step selects the matching direct children of the
elements selected so far. -/
def Xml.findallSteps (x : Xml) (path : List PathStep) : List Xml :=
  path.foldl (fun acc step => acc.flatMap (fun e => e.children.filter (stepMatches step))) [x]

/-- `Element.findtext(path)`: `none` when no element matches; otherwise the
text of the first match, with a `None` text rendered as the empty string
(CPython returns `elem.text or ""`). -/
def Xml.findtextSteps (x : Xml) (path : List PathStep) : Option String :=
  match x.findallSteps path with
  | [] => none
  | e :: _ => some (e.text.getD "")

/-- `Element.get(key)`: attribute lookup with `None` default. -/
def Xml.getAttr (x : Xml) (k : String) : Option String :=
  x.attrib.lookup k

/-- Turn an optional value into a raised Python exception, modelling an
operation (slicing, attribute access, key access) applied to `None`. -/
def pyReq (o : Option α) (e : PyErr) : Except PyErr α :=
  match o with
  | some a => .ok a
  | none => .error e

/-- Split a character list on the dash separator, keeping empty fields
(the shape the strptime format string imposes between its directives). -/
def splitDash : List Char → List (List Char)
  | [] => [[]]
  | c :: rest =>
    if c = '-' then [] :: splitDash rest
    else
      match splitDash rest with
      | f :: fs => (c :: f) :: fs
      | [] => [[c]]

def allDigits (l : List Char) : Bool :=
  l.all Char.isDigit

def natOfDigits (l : List Char) : Nat :=
  l.foldl (fun acc c => acc * 10 + (c.toNat - 48)) 0

/-- The year-month-day field split of the format string: the year
directive matches exactly four digits, month and day one or two digits,
with literal dashes between them and nothing left over. -/
def parseDateFields (s : String) : Option (Nat × Nat × Nat) :=
  match splitDash s.data with
  | [y, m, d] =>
    if y.length == 4 && allDigits y
        && (m.length == 1 || m.length == 2) && allDigits m
        && (d.length == 1 || d.length == 2) && allDigits d then
      some (natOfDigits y, natOfDigits m, natOfDigits d)
    else none
  | _ => none

def isLeapYear (y : Nat) : Bool :=
  (y % 4 == 0 && y % 100 != 0) || y % 400 == 0

def daysInMonth (y m : Nat) : Nat :=
  if m == 2 then (if isLeapYear y then 29 else 28)
  else if m == 4 || m == 6 || m == 9 || m == 11 then 30
  else 31

/-- Whether `datetime.strptime(s, ...)` with the year-month-day format
accepts `s`: the field shape must match and the constructed date must be
valid (year within the datetime range, month 1..12, day within the
month, leap years accounted for). -/
def validDateYMD (s : String) : Bool :=
  match parseDateFields s with
  | none => false
  | some (y, m, d) =>
    decide (1 ≤ y) && decide (y ≤ 9999) && decide (1 ≤ m) && decide (m ≤ 12) &&
      decide (1 ≤ d) && decide (d ≤ daysInMonth y m)

/-- `datetime.strptime(s, fmt)` with the year-month-day format: raises
`TypeError` when `s` is `None` and `ValueError` when the present string
(also the empty text of a present-but-empty element) does not decode as a
valid date.  The decoded date value is carried as its source string. -/
def strptime : Option String → Except PyErr String
  | none => .error .typeError
  | some s => if validDateYMD s then .ok s else .error .valueError

/-- Python `str.strip()`: drop whitespace from both ends (whitespace in the
ASCII sense; the source data never carries exotic unicode spacing). -/
def pyStrip (s : String) : String :=
  ⟨(((s.data.dropWhile Char.isWhitespace).reverse.dropWhile Char.isWhitespace).reverse)⟩

/-- Python `str.lower()` (ASCII case folding). -/
def pyLower (s : String) : String :=
  ⟨s.data.map Char.toLower⟩

/-- `List.mapM` for `Except`, written with explicit matches so that proofs
can follow the error propagation of the Python list comprehensions. -/
def mapE (f : α → Except PyErr β) : List α → Except PyErr (List β)
  | [] => .ok []
  | a :: l =>
    match f a with
    | .error e => .error e
    | .ok b =>
      match mapE f l with
      | .error e => .error e
      | .ok bs => .ok (b :: bs)

/-! ## Parser: extracted row structures (`parser.py`) -/

structure CategoryRow where
  name : Option String
  mesh_id : Option String
deriving DecidableEq, Repr

structure PatentRow where
  patent_id : Option String
  country : Option String
  approved : String
  expires : String
  pediatric_extension : Bool
deriving DecidableEq, Repr

structure XrefRow where
  resource : Option String
  identifier : Option String
deriving DecidableEq, Repr

structure PolypeptideRow where
  name : Option String
  hgnc_symbol : Option String
  hgnc_id : String
  uniprot_id : Option String
  uniprot_accession : Option String
  organism : Option String
  taxonomy : String
deriving DecidableEq, Repr

structure TargetRow where
  type : String
  category : String
  known_action : Option String
  name : Option String
  actions : List (Option String)
  articles : List String
deriving DecidableEq, Repr

structure ProteinRow where
  target : TargetRow
  polypeptides : List PolypeptideRow
deriving DecidableEq, Repr

structure DrugRow where
  type : Option String
  drugbank_id : Option String
  cas_number : Option String
  name : Option String
  description : Option String
  groups : List (Option String)
  atc_codes : List (Option String)
  categories : List CategoryRow
  patents : List PatentRow
  xrefs : List XrefRow
  inchi : Option String
  inchikey : Option String
  smiles : Option String
  aliases : Finset (Option String)
  protein_interactions : List ProteinRow
deriving DecidableEq

/-! ## Parser: paths -/

def inchikeyPath : List PathStep :=
  [.tag "calculated-properties", .tagChildText "property" "kind" "InChIKey", .tag "value"]

def inchiPath : List PathStep :=
  [.tag "calculated-properties", .tagChildText "property" "kind" "InChI", .tag "value"]

def smilesPath : List PathStep :=
  [.tag "calculated-properties", .tagChildText "property" "kind" "SMILES", .tag "value"]

def hgncIdPath : List PathStep :=
  [.tag "external-identifiers",
   .tagChildText "external-identifier" "resource" "HUGO Gene Nomenclature Committee (HGNC)",
   .tag "identifier"]

def uniprotIdPath : List PathStep :=
  [.tag "external-identifiers",
   .tagChildText "external-identifier" "resource" "UniProtKB",
   .tag "identifier"]

def uniprotAccessionPath : List PathStep :=
  [.tag "external-identifiers",
   .tagChildText "external-identifier" "resource" "UniProt Accession",
   .tag "identifier"]

def articlesPath : List PathStep :=
  [.tag "references", .tag "articles", .tag "article", .tag "pubmed-id"]

/-! ## Parser: extraction (`parser.py`) -/

/-- One entry of the `patents` list in `extract_drug_info`: both date fields
go through `datetime.strptime`, which raises `TypeError` on an absent text;
the pediatric-extension flag is the text being anything but the literal
string "false". -/
def extractPatent (x : Xml) : Except PyErr PatentRow :=
  match strptime (x.findtextSteps [.tag "approved"]) with
  | .error e => .error e
  | .ok approved =>
    match strptime (x.findtextSteps [.tag "expires"]) with
    | .error e => .error e
    | .ok expires =>
      .ok { patent_id := x.findtextSteps [.tag "number"]
            country := x.findtextSteps [.tag "country"]
            approved := approved
            expires := expires
            pediatric_extension := x.findtextSteps [.tag "pediatric-extension"] != some "false" }

/-- One entry of the `polypeptides` list in `extract_protein_info`.  The
HGNC identifier is sliced with `[len(HGNC-prefix):]`, raising `TypeError`
when the cross-reference is absent; the taxonomy id reads
`find(organism).attrib`, raising `AttributeError` when the organism element
is absent and `KeyError` when the attribute is. -/
def extractPolypeptide (p : Xml) : Except PyErr PolypeptideRow :=
  match p.findtextSteps hgncIdPath with
  | none => .error .typeError
  | some hgncText =>
    match (p.findallSteps [.tag "organism"]).head? with
    | none => .error .attributeError
    | some org =>
      match org.attrib.lookup "ncbi-taxonomy-id" with
      | none => .error .keyError
      | some taxonomy =>
        .ok { name := p.findtextSteps [.tag "name"]
              hgnc_symbol := p.findtextSteps [.tag "gene-name"]
              hgnc_id := hgncText.drop 5
              uniprot_id := p.findtextSteps uniprotIdPath
              uniprot_accession := p.findtextSteps uniprotAccessionPath
              organism := p.findtextSteps [.tag "organism"]
              taxonomy := taxonomy }

/-- The pubmed-id list: element texts kept only when truthy (neither `None`
nor empty). -/
def pubmedTexts (protein : Xml) : List String :=
  (protein.findallSteps articlesPath).filterMap fun e =>
    match e.text with
    | some s => if s != "" then some s else none
    | none => none

/-- `extract_protein_info`: classifies the entry by its polypeptide count,
extracts the target metadata and every polypeptide record. -/
def extract_protein_info (category : String) (protein : Xml) : Except PyErr ProteinRow :=
  let polypeptides := protein.findallSteps [.tag "polypeptide"]
  match mapE extractPolypeptide polypeptides with
  | .error e => .error e
  | .ok polys =>
    .ok { target := { type :=
                        if polypeptides.length == 0 then "none"
                        else if polypeptides.length == 1 then "single"
                        else "group"
                      category := category
                      known_action := protein.findtextSteps [.tag "known-action"]
                      name := protein.findtextSteps [.tag "name"]
                      actions := (protein.findallSteps [.tag "actions", .tag "action"]).map Xml.text
                      articles := pubmedTexts protein }
          polypeptides := polys }

/-- Python truthiness of the row dict returned by `extract_protein_info`:
the dict always carries the keys `target` and `polypeptides`, hence is
always truthy, so the `if not target_row: continue` guard in
`extract_drug_info` never skips a row. -/
def ProteinRow.toBool (_ : ProteinRow) : Bool := true

def _categories : List String := ["target", "enzyme", "carrier", "transporter"]

/-- `_iterate_protein_stuff`: category and protein element pairs in the
four fixed interaction categories, in document order. -/
def _iterate_protein_stuff (x : Xml) : List (String × Xml) :=
  _categories.flatMap fun c => (x.findallSteps [.tag (c ++ "s"), .tag c]).map fun p => (c, p)

/-- The protein-interaction loop of `extract_drug_info`: extract each
entry, keep it when the row (a dict) is truthy. -/
def extractInteractions : List (String × Xml) → Except PyErr (List ProteinRow)
  | [] => .ok []
  | (c, p) :: rest =>
    match extract_protein_info c p with
    | .error e => .error e
    | .ok row =>
      match extractInteractions rest with
      | .error e => .error e
      | .ok rows => .ok (if row.toBool then row :: rows else rows)

/-- The alias source elements chained in `extract_drug_info`: international
brands, English synonyms, international brands again, product names. -/
def aliasElems (x : Xml) : List Xml :=
  x.findallSteps [.tag "international-brands", .tag "international-brand"] ++
    x.findallSteps [.tag "synonyms", .tagAttr "synonym" "language" "English"] ++
    x.findallSteps [.tag "international-brands", .tag "international-brand"] ++
    x.findallSteps [.tag "products", .tag "product", .tag "name"]

/-- The alias set comprehension: each source text stripped, kept when the
stripped text is truthy, with the own name of the drug added afterwards.  A
Python set can hold `None` (the name when absent) next to strings, hence
the `Option String` element type. -/
def mkAliases (texts : List String) (name : Option String) : Finset (Option String) :=
  insert name (((texts.map pyStrip).filter (fun s => s != "")).map some).toFinset

/-- The record literal of `extract_drug_info`, given the already-extracted
fallible parts (patents, alias source texts, protein interactions). -/
def mkDrugRow (x : Xml) (patents : List PatentRow) (aliasTexts : List String)
    (pis : List ProteinRow) : DrugRow :=
  { type := x.getAttr "type"
    drugbank_id := x.findtextSteps [.tagAttr "drugbank-id" "primary" "true"]
    cas_number := x.findtextSteps [.tag "cas-number"]
    name := x.findtextSteps [.tag "name"]
    description := x.findtextSteps [.tag "description"]
    groups := (x.findallSteps [.tag "groups", .tag "group"]).map Xml.text
    atc_codes := (x.findallSteps [.tag "atc-codes", .tag "atc-code"]).map (fun c => c.getAttr "code")
    categories := (x.findallSteps [.tag "categories", .tag "category"]).map fun c =>
      { name := c.findtextSteps [.tag "category"], mesh_id := c.findtextSteps [.tag "mesh-id"] }
    patents := patents
    xrefs := (x.findallSteps [.tag "external-identifiers", .tag "external-identifier"]).map fun e =>
      { resource := e.findtextSteps [.tag "resource"], identifier := e.findtextSteps [.tag "identifier"] }
    inchi := x.findtextSteps inchiPath
    inchikey := x.findtextSteps inchikeyPath
    smiles := x.findtextSteps smilesPath
    aliases := mkAliases aliasTexts (x.findtextSteps [.tag "name"])
    protein_interactions := pis }

/-- `extract_drug_info`: asserts the drug tag, then builds the row.  The
fallible parts fail in the order the source evaluates them: the patents
list inside the row dict literal, then the alias comprehension (where
`elem.text.strip()` raises `AttributeError` on a `None` text), then the
protein-interaction loop. -/
def extract_drug_info (x : Xml) : Except PyErr DrugRow :=
  if x.tagName = "drug" then
    match mapE extractPatent (x.findallSteps [.tag "patents", .tag "patent"]),
        mapE (fun e => pyReq e.text .attributeError) (aliasElems x),
        extractInteractions (_iterate_protein_stuff x) with
    | .ok patents, .ok aliasTexts, .ok pis => .ok (mkDrugRow x patents aliasTexts pis)
    | .error e, _, _ => .error e
    | .ok _, .error e, _ => .error e
    | .ok _, .ok _, .error e => .error e
  else .error .assertionError

/-! ## Models: graph projection (`models.py`) -/

def MODULE_NAME : String := "drugbank"

/-- `pybel.constants.REGULATES` (external collaborator constant). -/
def REGULATES : String := "regulates"

/-- A pybel DSL node: function, namespace, optional name and identifier. -/
structure BelNode where
  function : String
  ns : String
  name : Option String
  identifier : Option String
deriving DecidableEq, Repr

/-- The fields of a stored `Drug` row that the graph projection reads. -/
structure MDrug where
  drugbank_id : String
  name : String
deriving DecidableEq, Repr

/-- `Drug.as_bel`: an abundance in the drugbank namespace. -/
def MDrug.as_bel (d : MDrug) : BelNode :=
  { function := "abundance", ns := MODULE_NAME, name := some d.name, identifier := some d.drugbank_id }

/-- A stored `Protein` row. -/
structure MProtein where
  uniprot_id : Option String
  uniprot_accession : Option String
  name : Option String
  hgnc_id : Option String
  entrez_id : Option String
deriving DecidableEq, Repr

/-- `Protein.as_bel_hgnc`: an HGNC-identified protein node. -/
def MProtein.as_bel_hgnc (p : MProtein) : BelNode :=
  { function := "protein", ns := "hgnc", name := none, identifier := p.hgnc_id }

/-- `Protein.as_bel`: a UniProt-identified protein node. -/
def MProtein.as_bel (p : MProtein) : BelNode :=
  { function := "protein", ns := "uniprot", name := none, identifier := p.uniprot_id }

/-- A stored `Article` row. -/
structure MArticle where
  pubmed_id : String
deriving DecidableEq, Repr

/-- A stored `DrugProteinInteraction` row with its loaded relationships. -/
structure MDPI where
  drug : MDrug
  protein : MProtein
  category : String
  known_action : Bool
  articles : List MArticle
deriving DecidableEq, Repr

/-- A qualified pybel edge as `_add_to_graph` emits it. -/
structure Edge where
  u : BelNode
  v : BelNode
  relation : String
  citation : String
  evidence : String
  annots : List (String × String)
  objActivity : Bool
deriving DecidableEq, Repr

structure BelGraph where
  edges : List Edge
deriving DecidableEq, Repr

/-- `BELGraph.add_qualified_edge` (external collaborator, pybel): the edge
key is a hash of the edge data, so re-adding an identical edge reuses the
same key and does not create a second parallel edge.  Returns the key,
represented here by the edge data itself, together with the new graph. -/
def addQualifiedEdge (g : BelGraph) (e : Edge) : Edge × BelGraph :=
  if e ∈ g.edges then (e, g) else (e, ⟨g.edges ++ [e]⟩)

/-- The edge `_add_to_graph` builds for one article: a regulates relation
cited by the PubMed id of the article, a fixed evidence string, the bio2bel
annotation and an activity object modifier. -/
def mkEdge (u v : BelNode) (pubmed_id : String) : Edge :=
  { u := u, v := v, relation := REGULATES, citation := pubmed_id,
    evidence := "From DrugBank", annots := [("bio2bel", MODULE_NAME)], objActivity := true }

/-- One iteration of the set comprehension in `_add_to_graph`. -/
def addArticleEdge (u v : BelNode) (acc : Finset Edge × BelGraph) (article : MArticle) :
    Finset Edge × BelGraph :=
  let kg := addQualifiedEdge acc.2 (mkEdge u v article.pubmed_id)
  (insert kg.1 acc.1, kg.2)

/-- `DrugProteinInteraction._add_to_graph`: one qualified edge per
associated article, returning the set of keys used. -/
def MDPI._add_to_graph (dpi : MDPI) (g : BelGraph) (u v : BelNode) : Finset Edge × BelGraph :=
  dpi.articles.foldl (addArticleEdge u v) (∅, g)

/-- `DrugProteinInteraction.add_to_graph`: projects the interaction using
the `as_bel` serializations of the drug and of the protein. -/
def MDPI.add_to_graph (dpi : MDPI) (g : BelGraph) : Finset Edge × BelGraph :=
  dpi._add_to_graph g dpi.drug.as_bel dpi.protein.as_bel

/-! ## Manager: HGNC lookup with logging (`manager.py`) -/

inductive LogLevel where
  | error
  | warning
  | info
deriving DecidableEq, Repr

structure LogMsg where
  level : LogLevel
  text : String
deriving DecidableEq, Repr

/-- Python str() of an optional string, as an f-string renders it. -/
def pyStr : Option String → String
  | none => "None"
  | some s => s

/-- The interpolated message `get_protein_by_hgnc_id` logs when several
proteins share one HGNC id: the uniprot id of each candidate and name, one per
line. -/
def isoformLogText (hgnc_id : String) (res : List MProtein) : String :=
  "found multiple isoforms of hgnc:" ++ hgnc_id ++ ". Keeping first of:\n" ++
    String.intercalate "\n" (res.map fun r => " - " ++ pyStr r.uniprot_id ++ " " ++ pyStr r.name)

/-- `Manager.get_protein_by_hgnc_id`: filter the stored proteins by HGNC
id; zero matches give no protein, one match is returned directly, several
matches return the first in storage order and emit a `log.error` record. -/
def get_protein_by_hgnc_id (db : List MProtein) (hgnc_id : String) :
    Option MProtein × List LogMsg :=
  match db.filter fun p => p.hgnc_id == some hgnc_id with
  | [] => (none, [])
  | [p] => (some p, [])
  | p :: q :: rest =>
    (some p, [{ level := .error, text := isoformLogText hgnc_id (p :: q :: rest) }])

/-! ## Manager: reconciliation layer (`manager.py`) -/

/-- An entity pending in the session (added with `session.add`, not yet
committed), with its constructor arguments. -/
inductive PendingEntity where
  | type (id : Nat) (name : Option String)
  | group (id : Nat) (name : Option String)
  | species (id : Nat) (name : Option String) (tax_id : String)
  | category (id : Nat) (name : Option String) (mesh_id : Option String)
  | patent (id : Nat) (country : Option String) (patent_id : Option String)
      (approved : String) (expires : String) (pediatric_extension : Bool)
  | protein (id : Nat) (uniprot_id : Option String) (name : Option String)
      (uniprot_accession : Option String) (species : Nat)
      (hgnc_id : Option String) (hgnc_symbol : Option String)
  | action (id : Nat) (name : String)
  | article (id : Nat) (pubmed_id : String)
deriving DecidableEq, Repr

/-- The run state of the manager: the eight run-scoped caches initialized in
`Manager.__init__`, the committed store (one natural-key index per kind,
mapping the key to the handle of the row), the pending session writes, and a
fresh-handle counter standing for Python object identity. -/
structure MState where
  type_to_model : List (Option String × Nat)
  group_to_model : List (Option String × Nat)
  category_to_model : List (Option String × Nat)
  patent_to_model : List ((Option String × Option String) × Nat)
  species_to_model : List (Option String × Nat)
  action_to_model : List (String × Nat)
  pmid_to_model : List (String × Nat)
  uniprot_id_to_protein : List (Option String × Nat)
  db_types : List (Option String × Nat)
  db_groups : List (Option String × Nat)
  db_categories : List (Option String × Nat)
  db_patents : List ((Option String × Option String) × Nat)
  db_species : List (Option String × Nat)
  db_actions : List (String × Nat)
  db_articles : List (String × Nat)
  db_proteins : List (Option String × Nat)
  pending : List PendingEntity
  nextId : Nat
deriving DecidableEq, Repr

/-- `Query.one_or_none`: none for an empty result, the row for a singleton,
`MultipleResultsFound` otherwise. -/
def oneOrNone : List α → Except PyErr (Option α)
  | [] => .ok none
  | [a] => .ok (some a)
  | _ => .error .multipleResultsFound

/-- `Manager.get_or_create_type`: consult the run cache, then the committed
store, then construct a new pending entity registered in the cache. -/
def get_or_create_type (s : MState) (name : Option String) : Except PyErr (Nat × MState) :=
  match s.type_to_model.lookup name with
  | some m => .ok (m, s)
  | none =>
    match oneOrNone (s.db_types.filter fun r => r.1 == name) with
    | .error e => .error e
    | .ok (some r) => .ok (r.2, { s with type_to_model := (name, r.2) :: s.type_to_model })
    | .ok none =>
      .ok (s.nextId,
        { s with type_to_model := (name, s.nextId) :: s.type_to_model,
                 pending := s.pending ++ [.type s.nextId name],
                 nextId := s.nextId + 1 })

/-- `Manager.get_or_create_group`. -/
def get_or_create_group (s : MState) (name : Option String) : Except PyErr (Nat × MState) :=
  match s.group_to_model.lookup name with
  | some m => .ok (m, s)
  | none =>
    match oneOrNone (s.db_groups.filter fun r => r.1 == name) with
    | .error e => .error e
    | .ok (some r) => .ok (r.2, { s with group_to_model := (name, r.2) :: s.group_to_model })
    | .ok none =>
      .ok (s.nextId,
        { s with group_to_model := (name, s.nextId) :: s.group_to_model,
                 pending := s.pending ++ [.group s.nextId name],
                 nextId := s.nextId + 1 })

/-- `Manager.get_or_create_species`: keyed by name alone; the taxonomy id
is only a constructor argument. -/
def get_or_create_species (s : MState) (name : Option String) (tax_id : String) :
    Except PyErr (Nat × MState) :=
  match s.species_to_model.lookup name with
  | some m => .ok (m, s)
  | none =>
    match oneOrNone (s.db_species.filter fun r => r.1 == name) with
    | .error e => .error e
    | .ok (some r) => .ok (r.2, { s with species_to_model := (name, r.2) :: s.species_to_model })
    | .ok none =>
      .ok (s.nextId,
        { s with species_to_model := (name, s.nextId) :: s.species_to_model,
                 pending := s.pending ++ [.species s.nextId name tax_id],
                 nextId := s.nextId + 1 })

/-- `Manager.get_or_create_category`: keyed by name; the mesh id arrives in
the keyword arguments. -/
def get_or_create_category (s : MState) (name : Option String) (mesh_id : Option String) :
    Except PyErr (Nat × MState) :=
  match s.category_to_model.lookup name with
  | some m => .ok (m, s)
  | none =>
    match oneOrNone (s.db_categories.filter fun r => r.1 == name) with
    | .error e => .error e
    | .ok (some r) => .ok (r.2, { s with category_to_model := (name, r.2) :: s.category_to_model })
    | .ok none =>
      .ok (s.nextId,
        { s with category_to_model := (name, s.nextId) :: s.category_to_model,
                 pending := s.pending ++ [.category s.nextId name mesh_id],
                 nextId := s.nextId + 1 })

/-- `Manager.get_or_create_patent`: keyed by the (country, patent id)
composite. -/
def get_or_create_patent (s : MState) (country patent_id : Option String)
    (approved expires : String) (pediatric_extension : Bool) : Except PyErr (Nat × MState) :=
  match s.patent_to_model.lookup (country, patent_id) with
  | some m => .ok (m, s)
  | none =>
    match oneOrNone (s.db_patents.filter fun r => r.1 == (country, patent_id)) with
    | .error e => .error e
    | .ok (some r) =>
      .ok (r.2, { s with patent_to_model := ((country, patent_id), r.2) :: s.patent_to_model })
    | .ok none =>
      .ok (s.nextId,
        { s with patent_to_model := ((country, patent_id), s.nextId) :: s.patent_to_model,
                 pending := s.pending ++
                   [.patent s.nextId country patent_id approved expires pediatric_extension],
                 nextId := s.nextId + 1 })

/-- `Manager.get_or_create_protein`: keyed by UniProt id; the remaining
columns arrive in the keyword arguments. -/
def get_or_create_protein (s : MState) (uniprot_id : Option String) (name : Option String)
    (uniprot_accession : Option String) (species : Nat)
    (hgnc_id : Option String) (hgnc_symbol : Option String) : Except PyErr (Nat × MState) :=
  match s.uniprot_id_to_protein.lookup uniprot_id with
  | some m => .ok (m, s)
  | none =>
    match oneOrNone (s.db_proteins.filter fun r => r.1 == uniprot_id) with
    | .error e => .error e
    | .ok (some r) =>
      .ok (r.2, { s with uniprot_id_to_protein := (uniprot_id, r.2) :: s.uniprot_id_to_protein })
    | .ok none =>
      .ok (s.nextId,
        { s with uniprot_id_to_protein := (uniprot_id, s.nextId) :: s.uniprot_id_to_protein,
                 pending := s.pending ++
                   [.protein s.nextId uniprot_id name uniprot_accession species hgnc_id hgnc_symbol],
                 nextId := s.nextId + 1 })

/-- `Manager.get_or_create_action`: keyed by the (already normalized)
action name. -/
def get_or_create_action (s : MState) (name : String) : Except PyErr (Nat × MState) :=
  match s.action_to_model.lookup name with
  | some m => .ok (m, s)
  | none =>
    match oneOrNone (s.db_actions.filter fun r => r.1 == name) with
    | .error e => .error e
    | .ok (some r) => .ok (r.2, { s with action_to_model := (name, r.2) :: s.action_to_model })
    | .ok none =>
      .ok (s.nextId,
        { s with action_to_model := (name, s.nextId) :: s.action_to_model,
                 pending := s.pending ++ [.action s.nextId name],
                 nextId := s.nextId + 1 })

/-- `Manager.get_or_create_article`: keyed by PubMed id. -/
def get_or_create_article (s : MState) (pubmed_id : String) : Except PyErr (Nat × MState) :=
  match s.pmid_to_model.lookup pubmed_id with
  | some m => .ok (m, s)
  | none =>
    match oneOrNone (s.db_articles.filter fun r => r.1 == pubmed_id) with
    | .error e => .error e
    | .ok (some r) => .ok (r.2, { s with pmid_to_model := (pubmed_id, r.2) :: s.pmid_to_model })
    | .ok none =>
      .ok (s.nextId,
        { s with pmid_to_model := (pubmed_id, s.nextId) :: s.pmid_to_model,
                 pending := s.pending ++ [.article s.nextId pubmed_id],
                 nextId := s.nextId + 1 })

/-! ## Manager: interaction creation (the populate inner loop) -/

/-- A created `DrugProteinInteraction`, holding handles to its reconciled
references. -/
structure CreatedDPI where
  drug : Nat
  protein : Nat
  known_action : Bool
  actions : List Nat
  articles : List Nat
  category : String
  type : String
deriving DecidableEq, Repr

/-- The action list comprehension in `_create_drug_protein_interaction`:
each raw action label is stripped and lower-cased (`AttributeError` on a
`None` label) and reconciled. -/
def gocActions (s : MState) : List (Option String) → Except PyErr (MState × List Nat)
  | [] => .ok (s, [])
  | nameOpt :: rest =>
    match nameOpt with
    | none => .error .attributeError
    | some n =>
      match get_or_create_action s (pyLower (pyStrip n)) with
      | .error e => .error e
      | .ok (aId, s2) =>
        match gocActions s2 rest with
        | .error e => .error e
        | .ok (s3, ids) => .ok (s3, aId :: ids)

/-- The article list comprehension in `_create_drug_protein_interaction`. -/
def gocArticles (s : MState) : List String → Except PyErr (MState × List Nat)
  | [] => .ok (s, [])
  | pubmed_id :: rest =>
    match get_or_create_article s pubmed_id with
    | .error e => .error e
    | .ok (artId, s2) =>
      match gocArticles s2 rest with
      | .error e => .error e
      | .ok (s3, ids) => .ok (s3, artId :: ids)

/-- `Manager._create_drug_protein_interaction`: reconcile the species and
the protein, then build the interaction row with its strict known-action
boolean and its reconciled action and article references. -/
def _create_drug_protein_interaction (s : MState) (drug : Nat) (poly : PolypeptideRow)
    (target : TargetRow) : Except PyErr (MState × CreatedDPI) :=
  match get_or_create_species s poly.organism poly.taxonomy with
  | .error e => .error e
  | .ok (speciesId, s1) =>
    match get_or_create_protein s1 poly.uniprot_id poly.name poly.uniprot_accession speciesId
        (some poly.hgnc_id) poly.hgnc_symbol with
    | .error e => .error e
    | .ok (proteinId, s2) =>
      match gocActions s2 target.actions with
      | .error e => .error e
      | .ok (s3, actionIds) =>
        match gocArticles s3 target.articles with
        | .error e => .error e
        | .ok (s4, articleIds) =>
          .ok (s4, { drug := drug, protein := proteinId,
                     known_action := target.known_action == some "yes",
                     actions := actionIds, articles := articleIds,
                     category := target.category, type := target.type })

/-- The inner polypeptide loop of `Manager.populate`: one interaction per
polypeptide of the entry, all sharing the target metadata of the entry. -/
def createForPolys (s : MState) (drug : Nat) (target : TargetRow) :
    List PolypeptideRow → Except PyErr (MState × List CreatedDPI)
  | [] => .ok (s, [])
  | poly :: rest =>
    match _create_drug_protein_interaction s drug poly target with
    | .error e => .error e
    | .ok (s2, dpi) =>
      match createForPolys s2 drug target rest with
      | .error e => .error e
      | .ok (s3, dpis) => .ok (s3, dpi :: dpis)

/-- The interaction loop of `Manager.populate` for one drug: every
extracted protein-interaction row expands into one created interaction per
polypeptide. -/
def createInteractions (s : MState) (drug : Nat) :
    List ProteinRow → Except PyErr (MState × List CreatedDPI)
  | [] => .ok (s, [])
  | row :: rest =>
    match createForPolys s drug row.target row.polypeptides with
    | .error e => .error e
    | .ok (s2, dpis1) =>
      match createInteractions s2 drug rest with
      | .error e => .error e
      | .ok (s3, dpis2) => .ok (s3, dpis1 ++ dpis2)

/-! ## Manager: HGNC id exports (`manager.py`) -/

/-- `defaultdict(list)` append: `rv[k].append(v)`. -/
def addToMulti (m : List (String × List String)) (k v : String) : List (String × List String) :=
  match m with
  | [] => [(k, [v])]
  | (k1, vs) :: rest => if k1 = k then (k1, vs ++ [v]) :: rest else (k1, vs) :: addToMulti rest k v

/-- One loop iteration of `get_hgnc_id_to_drugs`: skip an interaction
whose protein has no HGNC id; otherwise file the drug name under the
stored HGNC id with its first five characters (the length of the HGNC
prefix) sliced off. -/
def hgncIdFoldStep (rv : List (String × List String)) (dpi : MDPI) : List (String × List String) :=
  match dpi.protein.hgnc_id with
  | none => rv
  | some h => addToMulti rv (h.drop 5) dpi.drug.name

/-- `Manager.get_hgnc_id_to_drugs`. -/
def get_hgnc_id_to_drugs (dpis : List MDPI) : List (String × List String) :=
  dpis.foldl hgncIdFoldStep []

/-- One loop iteration of `get_drug_to_hgnc_ids`: the same slice, filed
under the drug name. -/
def drugNameFoldStep (rv : List (String × List String)) (dpi : MDPI) : List (String × List String) :=
  match dpi.protein.hgnc_id with
  | none => rv
  | some h => addToMulti rv dpi.drug.name (h.drop 5)

/-- `Manager.get_drug_to_hgnc_ids` (the recomputation path; the JSON file
cache read/write is filesystem access, outside the modelled core). -/
def get_drug_to_hgnc_ids (dpis : List MDPI) : List (String × List String) :=
  dpis.foldl drugNameFoldStep []

/-! ## Pending-entity natural keys (for stating the reconciliation claims) -/

def pendingTypeKey : PendingEntity → Option (Option String)
  | .type _ n => some n
  | _ => none

def pendingGroupKey : PendingEntity → Option (Option String)
  | .group _ n => some n
  | _ => none

def pendingSpeciesKey : PendingEntity → Option (Option String)
  | .species _ n _ => some n
  | _ => none

def pendingCategoryKey : PendingEntity → Option (Option String)
  | .category _ n _ => some n
  | _ => none

def pendingPatentKey : PendingEntity → Option (Option String × Option String)
  | .patent _ c pid _ _ _ => some (c, pid)
  | _ => none

def pendingProteinKey : PendingEntity → Option (Option String)
  | .protein _ u _ _ _ _ _ => some u
  | _ => none

def pendingActionKey : PendingEntity → Option String
  | .action _ n => some n
  | _ => none

def pendingArticleKey : PendingEntity → Option String
  | .article _ p => some p
  | _ => none

/-- Date well-formedness of a patent element: both date texts exist and
decode under the year-month-day format (the two `strptime` calls that
`extract_drug_info` performs on a patent). -/
def patentDatesOk (p : Xml) : Bool :=
  (match p.findtextSteps [.tag "approved"] with
    | some s => validDateYMD s
    | none => false) &&
  (match p.findtextSteps [.tag "expires"] with
    | some s => validDateYMD s
    | none => false)

/-- Organism well-formedness of a polypeptide element: the organism child
exists and carries the taxonomy attribute (the two accesses
`find(organism)` and `.attrib` that `extract_protein_info` performs). -/
def polyOrganismOk (poly : Xml) : Bool :=
  match (poly.findallSteps [.tag "organism"]).head? with
  | some org => (org.attrib.lookup "ncbi-taxonomy-id").isSome
  | none => false

/-! ## Concrete instances used to witness the theorems -/

def mEmpty : MState :=
  { type_to_model := [], group_to_model := [], category_to_model := [], patent_to_model := [],
    species_to_model := [], action_to_model := [], pmid_to_model := [], uniprot_id_to_protein := [],
    db_types := [], db_groups := [], db_categories := [], db_patents := [], db_species := [],
    db_actions := [], db_articles := [], db_proteins := [], pending := [], nextId := 0 }

def cPatentNoPed : Xml :=
  .elem "patent" [] none
    [.elem "approved" [] (some "1998-04-21") [],
     .elem "expires" [] (some "2015-04-21") []]

def cPatentRowNoPed : PatentRow :=
  { patent_id := none, country := none, approved := "1998-04-21", expires := "2015-04-21",
    pediatric_extension := true }

def cOrganism : Xml := .elem "organism" [("ncbi-taxonomy-id", "9606")] (some "Humans") []

def cHgncXref : Xml :=
  .elem "external-identifier" [] none
    [.elem "resource" [] (some "HUGO Gene Nomenclature Committee (HGNC)") [],
     .elem "identifier" [] (some "HGNC:3535") []]

def cUniprotXref : Xml :=
  .elem "external-identifier" [] none
    [.elem "resource" [] (some "UniProtKB") [],
     .elem "identifier" [] (some "P00734") []]

def cPolypeptide : Xml :=
  .elem "polypeptide" [] none
    [.elem "name" [] (some "Prothrombin") [],
     .elem "gene-name" [] (some "F2") [],
     .elem "external-identifiers" [] none [cHgncXref, cUniprotXref],
     cOrganism]

def cPolyRow : PolypeptideRow :=
  { name := some "Prothrombin", hgnc_symbol := some "F2", hgnc_id := "3535",
    uniprot_id := some "P00734", uniprot_accession := none,
    organism := some "Humans", taxonomy := "9606" }

def cTargetRow : TargetRow :=
  { type := "single", category := "target", known_action := some "yes",
    name := some "Prothrombin", actions := [some "inhibitor"], articles := ["10505536"] }

def cS6 : MState :=
  { mEmpty with
    species_to_model := [(some "Humans", 0)],
    uniprot_id_to_protein := [(some "P00734", 1)],
    action_to_model := [("inhibitor", 2)],
    pmid_to_model := [("10505536", 3)],
    pending := [.species 0 (some "Humans") "9606",
                .protein 1 (some "P00734") (some "Prothrombin") none 0 (some "3535") (some "F2"),
                .action 2 "inhibitor",
                .article 3 "10505536"],
    nextId := 4 }

def cDpi6 : CreatedDPI :=
  { drug := 0, protein := 1, known_action := true, actions := [2], articles := [3],
    category := "target", type := "single" }

def cPolypeptideNoUP : Xml :=
  .elem "polypeptide" [] none
    [.elem "external-identifiers" [] none [cHgncXref], cOrganism]

def cPolyRowNoUP : PolypeptideRow :=
  { name := none, hgnc_symbol := none, hgnc_id := "3535", uniprot_id := none,
    uniprot_accession := none, organism := some "Humans", taxonomy := "9606" }

def cTargetNoUP : Xml :=
  .elem "target" [] none
    [.elem "known-action" [] (some "yes") [],
     .elem "name" [] (some "Thrombin") [],
     cPolypeptideNoUP]

def cDrugNoUniprot : Xml :=
  .elem "drug" [] none
    [.elem "name" [] (some "Lepirudin") [],
     .elem "targets" [] none [cTargetNoUP]]

def cTargetRowNoUP : TargetRow :=
  { type := "single", category := "target", known_action := some "yes",
    name := some "Thrombin", actions := [], articles := [] }

def cProtRowNoUP : ProteinRow := { target := cTargetRowNoUP, polypeptides := [cPolyRowNoUP] }

def cDrugPatentNoDate : Xml :=
  .elem "drug" [] none
    [.elem "patents" [] none
      [.elem "patent" [] none [.elem "expires" [] (some "2015-04-21") []]]]

def cDrugEmptyDate : Xml :=
  .elem "drug" [] none
    [.elem "patents" [] none
      [.elem "patent" [] none
        [.elem "approved" [] none [], .elem "expires" [] (some "2015-04-21") []]]]

def cDrugEmptyName : Xml :=
  .elem "drug" [] none [.elem "name" [] none []]

def cDrugPolyNoHgnc : Xml :=
  .elem "drug" [] none
    [.elem "targets" [] none
      [.elem "target" [] none [.elem "polypeptide" [] none [cOrganism]]]]

def cDrugPolyNoOrganism : Xml :=
  .elem "drug" [] none
    [.elem "targets" [] none
      [.elem "target" [] none
        [.elem "polypeptide" [] none [.elem "external-identifiers" [] none [cHgncXref]]]]]

def cPatentFull : Xml :=
  .elem "patent" [] none
    [.elem "number" [] (some "5180668") [],
     .elem "country" [] (some "United States") [],
     .elem "approved" [] (some "1993-01-19") [],
     .elem "expires" [] (some "2010-01-19") [],
     .elem "pediatric-extension" [] (some "false") []]

def cTargetFull : Xml :=
  .elem "target" [] none
    [.elem "known-action" [] (some "yes") [],
     .elem "name" [] (some "Prothrombin") [],
     .elem "actions" [] none [.elem "action" [] (some "inhibitor") []],
     .elem "references" [] none
       [.elem "articles" [] none
         [.elem "article" [] none [.elem "pubmed-id" [] (some "10505536") []]]],
     cPolypeptide]

def cDrugFull : Xml :=
  .elem "drug" [("type", "biotech")] none
    [.elem "name" [] (some "Lepirudin") [],
     .elem "synonyms" [] none
       [.elem "synonym" [("language", "English")] (some " Hirudin variant-1 ") []],
     .elem "patents" [] none [cPatentFull],
     .elem "targets" [] none [cTargetFull]]

def mT1 : MState :=
  { mEmpty with type_to_model := [(some "biotech", 0)],
                pending := [.type 0 (some "biotech")], nextId := 1 }

def mG1 : MState :=
  { mEmpty with group_to_model := [(some "approved", 0)],
                pending := [.group 0 (some "approved")], nextId := 1 }

def mS1 : MState :=
  { mEmpty with species_to_model := [(some "Humans", 0)],
                pending := [.species 0 (some "Humans") "9606"], nextId := 1 }

def mC1 : MState :=
  { mEmpty with category_to_model := [(some "Antibodies", 0)],
                pending := [.category 0 (some "Antibodies") none], nextId := 1 }

def mP1 : MState :=
  { mEmpty with patent_to_model := [((some "United States", some "5972916"), 0)],
                pending := [.patent 0 (some "United States") (some "5972916")
                  "1997-10-28" "2017-10-28" true],
                nextId := 1 }

def mPr1 : MState :=
  { mEmpty with uniprot_id_to_protein := [(some "P00734", 0)],
                pending := [.protein 0 (some "P00734") (some "Prothrombin") none 7
                  (some "3535") (some "F2")],
                nextId := 1 }

def mA1 : MState :=
  { mEmpty with action_to_model := [("inhibitor", 0)],
                pending := [.action 0 "inhibitor"], nextId := 1 }

def mAr1 : MState :=
  { mEmpty with pmid_to_model := [("10505536", 0)],
                pending := [.article 0 "10505536"], nextId := 1 }

def cS1NoUP : MState :=
  { mEmpty with
    species_to_model := [(some "Humans", 0)],
    uniprot_id_to_protein := [(none, 1)],
    pending := [.species 0 (some "Humans") "9606",
                .protein 1 none none none 0 (some "3535") none],
    nextId := 2 }

def cDpiNoUP : CreatedDPI :=
  { drug := 0, protein := 1, known_action := true, actions := [], articles := [],
    category := "target", type := "single" }

def cPatentRowFull : PatentRow :=
  { patent_id := some "5180668", country := some "United States", approved := "1993-01-19",
    expires := "2010-01-19", pediatric_extension := false }

def cProtRowFull : ProteinRow := { target := cTargetRow, polypeptides := [cPolyRow] }

def cMDrug : MDrug := { drugbank_id := "DB00001", name := "Lepirudin" }

def cMProtein : MProtein :=
  { uniprot_id := some "P00734", uniprot_accession := none, name := some "Prothrombin",
    hgnc_id := some "3535", entrez_id := none }

def cMDPI : MDPI :=
  { drug := cMDrug, protein := cMProtein, category := "target", known_action := true,
    articles := [{ pubmed_id := "10505536" }, { pubmed_id := "10912644" }] }

def cMDPInoArticles : MDPI :=
  { drug := cMDrug, protein := cMProtein, category := "target", known_action := true,
    articles := [] }

def emptyBelGraph : BelGraph := { edges := [] }

def cIsoA : MProtein :=
  { uniprot_id := some "P0DP23", uniprot_accession := none, name := some "Calmodulin-1",
    hgnc_id := some "1442", entrez_id := none }

def cIsoB : MProtein :=
  { uniprot_id := some "P0DP24", uniprot_accession := none, name := some "Calmodulin-2",
    hgnc_id := some "1442", entrez_id := none }

/-! ## Theorems -/

/-- C9: for every extracted patent structure, the pediatric-extension flag
is false exactly when the text of the source element is literally the string
"false"; in particular, when the pediatric-extension element is entirely
absent the flag is true. -/
theorem claim_c9_pediatric_default_true (p : Xml) (row : PatentRow)
    (h : extractPatent p = .ok row) :
    (row.pediatric_extension = false ↔
      p.findtextSteps [.tag "pediatric-extension"] = some "false") ∧
    (p.findtextSteps [.tag "pediatric-extension"] = none → row.pediatric_extension = true) := by
  unfold extractPatent at h
  cases h1 : strptime (p.findtextSteps [.tag "approved"]) <;> rw [h1] at h
  · exact absurd h (by simp)
  cases h2 : strptime (p.findtextSteps [.tag "expires"]) <;> rw [h2] at h
  · exact absurd h (by simp)
  simp only [Except.ok.injEq] at h
  subst h
  refine ⟨?_, ?_⟩
  · simp [bne_eq_false_iff_eq]
  · intro hnone
    simp [hnone]

/-- Witness for C9: a concrete patent element with both dates but no
pediatric-extension element yields the flag true. -/
theorem claim_c9_witness :
    (cPatentRowNoPed.pediatric_extension = false ↔
      cPatentNoPed.findtextSteps [.tag "pediatric-extension"] = some "false") ∧
    (cPatentNoPed.findtextSteps [.tag "pediatric-extension"] = none →
      cPatentRowNoPed.pediatric_extension = true) :=
  claim_c9_pediatric_default_true cPatentNoPed cPatentRowNoPed (by rfl)

/-- C6: every created DrugProteinInteraction has `known_action = true`
exactly when the raw known-action token extracted from the source is the
string "yes"; any other token, including an absent one, yields false. -/
theorem claim_c6_known_action_strict (s : MState) (drug : Nat) (poly : PolypeptideRow)
    (target : TargetRow) (s4 : MState) (dpi : CreatedDPI)
    (h : _create_drug_protein_interaction s drug poly target = .ok (s4, dpi)) :
    (dpi.known_action = true ↔ target.known_action = some "yes") := by
  unfold _create_drug_protein_interaction at h
  split at h
  · exact absurd h (by simp)
  split at h
  · exact absurd h (by simp)
  split at h
  · exact absurd h (by simp)
  split at h
  · exact absurd h (by simp)
  simp only [Except.ok.injEq, Prod.mk.injEq] at h
  obtain ⟨-, hdpi⟩ := h
  subst hdpi
  simp

/-- Witness for C6: a concrete creation run on the empty manager state with
the raw token "yes" yields a true flag. -/
theorem claim_c6_witness :
    cDpi6.known_action = true ↔ cTargetRow.known_action = some "yes" :=
  claim_c6_known_action_strict mEmpty 0 cPolyRow cTargetRow cS6 cDpi6 (by rfl)

/-- Inversion of a successful `extract_drug_info` run: the tag matched and
the row is the record literal built from the three fallible parts. -/
theorem extract_drug_info_ok_inv (x : Xml) (r : DrugRow) (h : extract_drug_info x = .ok r) :
    x.tagName = "drug" ∧
    ∃ patents aliasTexts pis,
      mapE extractPatent (x.findallSteps [.tag "patents", .tag "patent"]) = .ok patents ∧
      mapE (fun e => pyReq e.text .attributeError) (aliasElems x) = .ok aliasTexts ∧
      extractInteractions (_iterate_protein_stuff x) = .ok pis ∧
      r = mkDrugRow x patents aliasTexts pis := by
  unfold extract_drug_info at h
  split at h
  next htag =>
    refine ⟨htag, ?_⟩
    split at h
    next patents aliasTexts pis h1 h2 h3 =>
      exact ⟨patents, aliasTexts, pis, h1, h2, h3, by simpa using h.symm⟩
    next => exact absurd h (by simp)
    next => exact absurd h (by simp)
    next => exact absurd h (by simp)
  next => exact absurd h (by simp)

/-- C7 (amended): the alias set of every successfully extracted drug
contains the own name of the drug and has no duplicates (it is a set);
every member other than the name is a stripped, truthiness-filtered source
text, so the set contains no empty-string entry unless the extracted name
is itself the empty string — the name is added unfiltered, so a
present-but-empty name element does put the empty string in the set. -/
theorem claim_c7_alias_set (x : Xml) (r : DrugRow) (h : extract_drug_info x = .ok r) :
    r.name ∈ r.aliases ∧
    r.aliases.val.Nodup ∧
    (r.name ≠ some "" → some "" ∉ r.aliases) := by
  obtain ⟨-, patents, aliasTexts, pis, -, -, -, hr⟩ := extract_drug_info_ok_inv x r h
  subst hr
  have hname : (mkDrugRow x patents aliasTexts pis).name = x.findtextSteps [.tag "name"] := rfl
  have halias : (mkDrugRow x patents aliasTexts pis).aliases =
      mkAliases aliasTexts (x.findtextSteps [.tag "name"]) := rfl
  rw [hname, halias]
  refine ⟨Finset.mem_insert_self _ _, Finset.nodup _, ?_⟩
  intro hne hmem
  rcases Finset.mem_insert.1 hmem with heq | hmem2
  · exact hne heq.symm
  · rcases List.mem_toFinset.1 hmem2 with hmem3
    rcases List.mem_map.1 hmem3 with ⟨t, ht, hts⟩
    rcases List.mem_filter.1 ht with ⟨-, htne⟩
    have : t = "" := by simpa using hts
    subst this
    simp at htne

/-- Counterexample for C7 as stated: a drug whose name element is present
but empty extracts successfully with name equal to the empty string, and
the unfiltered `add` of the name puts the empty string into the alias
set, so the set does have an empty-string entry. -/
theorem claim_c7_counterexample :
    extract_drug_info cDrugEmptyName = .ok (mkDrugRow cDrugEmptyName [] [] []) ∧
    (mkDrugRow cDrugEmptyName [] [] []).name = some "" ∧
    some "" ∈ (mkDrugRow cDrugEmptyName [] [] []).aliases :=
  ⟨rfl, rfl, by decide⟩

/-- Witness for C7: the fully populated concrete drug element. -/
theorem claim_c7_witness :
    (mkDrugRow cDrugFull [cPatentRowFull] [" Hirudin variant-1 "] [cProtRowFull]).name ∈
      (mkDrugRow cDrugFull [cPatentRowFull] [" Hirudin variant-1 "] [cProtRowFull]).aliases ∧
    (mkDrugRow cDrugFull [cPatentRowFull] [" Hirudin variant-1 "] [cProtRowFull]).aliases.val.Nodup ∧
    ((mkDrugRow cDrugFull [cPatentRowFull] [" Hirudin variant-1 "] [cProtRowFull]).name ≠ some "" →
      some "" ∉ (mkDrugRow cDrugFull [cPatentRowFull] [" Hirudin variant-1 "] [cProtRowFull]).aliases) :=
  claim_c7_alias_set cDrugFull _ (by rfl)

theorem lookup_addToMulti_self (m : List (String × List String)) (k v : String) :
    (addToMulti m k v).lookup k = some (((m.lookup k).getD []) ++ [v]) := by
  induction m with
  | nil => simp [addToMulti, List.lookup]
  | cons hd tl ih =>
    obtain ⟨k1, vs⟩ := hd
    by_cases hk : k1 = k
    · subst hk
      simp [addToMulti, List.lookup]
    · have hbe : (k == k1) = false := by
        simp [beq_eq_false_iff_ne]
        exact fun hq => hk hq.symm
      simp [addToMulti, hk, List.lookup, hbe, ih]

theorem lookup_addToMulti_ne (m : List (String × List String)) (k v q : String) (hq : q ≠ k) :
    (addToMulti m k v).lookup q = m.lookup q := by
  induction m with
  | nil =>
    have hbe : (q == k) = false := by simpa [beq_eq_false_iff_ne] using hq
    simp [addToMulti, List.lookup, hbe]
  | cons hd tl ih =>
    obtain ⟨k1, vs⟩ := hd
    by_cases hk : k1 = k
    · subst hk
      have hbe : (q == k1) = false := by simpa [beq_eq_false_iff_ne] using hq
      simp [addToMulti, List.lookup, hbe]
    · simp [addToMulti, hk, List.lookup, ih]

theorem hgncFold_lookup (dpis : List MDPI) :
    ∀ (rv : List (String × List String)) (k : String),
      ((dpis.foldl hgncIdFoldStep rv).lookup k).getD [] =
        ((rv.lookup k).getD []) ++
          ((dpis.filter fun dpi => dpi.protein.hgnc_id.map (fun h => h.drop 5) == some k).map
            fun dpi => dpi.drug.name) := by
  induction dpis with
  | nil => simp
  | cons dpi rest ih =>
    intro rv k
    simp only [List.foldl_cons]
    cases hh : dpi.protein.hgnc_id with
    | none =>
      have hstep : hgncIdFoldStep rv dpi = rv := by simp [hgncIdFoldStep, hh]
      rw [hstep, ih]
      simp [List.filter_cons, hh]
    | some hstr =>
      have hstep : hgncIdFoldStep rv dpi = addToMulti rv (hstr.drop 5) dpi.drug.name := by
        simp [hgncIdFoldStep, hh]
      rw [hstep, ih]
      by_cases hk : hstr.drop 5 = k
      · subst hk
        rw [lookup_addToMulti_self]
        simp [List.filter_cons, hh]
      · rw [lookup_addToMulti_ne _ _ _ _ (fun hq => hk hq.symm)]
        simp [List.filter_cons, hh, hk]

theorem drugFold_lookup (dpis : List MDPI) :
    ∀ (rv : List (String × List String)) (d : String),
      ((dpis.foldl drugNameFoldStep rv).lookup d).getD [] =
        ((rv.lookup d).getD []) ++
          ((dpis.filter fun dpi => dpi.drug.name == d && dpi.protein.hgnc_id.isSome).map
            fun dpi => (dpi.protein.hgnc_id.getD "").drop 5) := by
  induction dpis with
  | nil => simp
  | cons dpi rest ih =>
    intro rv d
    simp only [List.foldl_cons]
    cases hh : dpi.protein.hgnc_id with
    | none =>
      have hstep : drugNameFoldStep rv dpi = rv := by simp [drugNameFoldStep, hh]
      rw [hstep, ih]
      simp [List.filter_cons, hh]
    | some hstr =>
      have hstep : drugNameFoldStep rv dpi = addToMulti rv dpi.drug.name (hstr.drop 5) := by
        simp [drugNameFoldStep, hh]
      rw [hstep, ih]
      by_cases hd : dpi.drug.name = d
      · rw [hd, lookup_addToMulti_self]
        simp [List.filter_cons, hh, hd]
      · rw [lookup_addToMulti_ne _ _ _ _ (fun hq => hd hq.symm)]
        simp [List.filter_cons, hh, hd]

/-- C10: the HGNC identifiers emitted by `get_hgnc_id_to_drugs` and
`get_drug_to_hgnc_ids` are the stored `hgnc_id` with its first five
characters removed, although the parser already removed the HGNC prefix
(five characters) when it extracted the id, so the emitted identifier is
the raw HGNC number with its leading five characters cut off. -/
theorem claim_c10_double_prefix_strip :
    (∀ (dpis : List MDPI) (k : String),
        ((get_hgnc_id_to_drugs dpis).lookup k).getD [] =
          ((dpis.filter fun dpi => dpi.protein.hgnc_id.map (fun h => h.drop 5) == some k).map
            fun dpi => dpi.drug.name)) ∧
    (∀ (dpis : List MDPI) (d : String),
        ((get_drug_to_hgnc_ids dpis).lookup d).getD [] =
          ((dpis.filter fun dpi => dpi.drug.name == d && dpi.protein.hgnc_id.isSome).map
            fun dpi => (dpi.protein.hgnc_id.getD "").drop 5)) ∧
    (∀ (p : Xml) (t : String) (row : PolypeptideRow),
        p.findtextSteps hgncIdPath = some t → extractPolypeptide p = .ok row →
        row.hgnc_id = t.drop 5) := by
  refine ⟨?_, ?_, ?_⟩
  · intro dpis k
    have := hgncFold_lookup dpis [] k
    simpa [get_hgnc_id_to_drugs] using this
  · intro dpis d
    have := drugFold_lookup dpis [] d
    simpa [get_drug_to_hgnc_ids] using this
  · intro p t row h1 h2
    unfold extractPolypeptide at h2
    split at h2
    · exact absurd h2 (by simp)
    next hgncText heq =>
      split at h2
      · exact absurd h2 (by simp)
      split at h2
      · exact absurd h2 (by simp)
      simp only [Except.ok.injEq] at h2
      subst h2
      rw [heq] at h1
      have ht : hgncText = t := by
        exact Option.some.inj h1
      subst ht
      rfl

/-- Witness for C10: a stored interaction whose protein has `hgnc_id`
"3535" (already prefix-free) is emitted under the key "" — the slice cuts
again; the parser conjunct is witnessed on the concrete polypeptide whose
raw identifier text is "HGNC:3535". -/
theorem claim_c10_witness :
    (((get_hgnc_id_to_drugs [cMDPI]).lookup "").getD [] =
      (([cMDPI].filter fun dpi => dpi.protein.hgnc_id.map (fun h => h.drop 5) == some "").map
        fun dpi => dpi.drug.name)) ∧
    (((get_drug_to_hgnc_ids [cMDPI]).lookup "Lepirudin").getD [] =
      (([cMDPI].filter fun dpi => dpi.drug.name == "Lepirudin" && dpi.protein.hgnc_id.isSome).map
        fun dpi => (dpi.protein.hgnc_id.getD "").drop 5)) ∧
    cPolyRow.hgnc_id = "HGNC:3535".drop 5 :=
  ⟨claim_c10_double_prefix_strip.1 [cMDPI] "",
   claim_c10_double_prefix_strip.2.1 [cMDPI] "Lepirudin",
   claim_c10_double_prefix_strip.2.2 cPolypeptide "HGNC:3535" cPolyRow (by rfl) (by rfl)⟩

/-- C8 (amended): lookup by HGNC id is total (never raises); zero matches
return no protein and no log; one match is returned silently;
several matches deterministically return the first match in storage order
and emit a single error-level (not warning-level) log record whose text
identifies the candidates. -/
theorem claim_c8_isoform_lookup (db : List MProtein) (hgnc_id : String) :
    ((db.filter fun p => p.hgnc_id == some hgnc_id) = [] →
      get_protein_by_hgnc_id db hgnc_id = (none, [])) ∧
    (∀ (p : MProtein) (rest : List MProtein),
      (db.filter fun p2 => p2.hgnc_id == some hgnc_id) = p :: rest →
        (get_protein_by_hgnc_id db hgnc_id).1 = some p ∧
        (rest = [] → (get_protein_by_hgnc_id db hgnc_id).2 = []) ∧
        (rest ≠ [] →
          (get_protein_by_hgnc_id db hgnc_id).2 =
            [{ level := .error, text := isoformLogText hgnc_id (p :: rest) }])) := by
  refine ⟨?_, ?_⟩
  · intro hres
    simp [get_protein_by_hgnc_id, hres]
  · intro p rest hres
    cases rest with
    | nil =>
      refine ⟨?_, ?_, ?_⟩
      · simp [get_protein_by_hgnc_id, hres]
      · intro _
        simp [get_protein_by_hgnc_id, hres]
      · intro hne
        exact absurd rfl hne
    | cons q rest2 =>
      refine ⟨?_, ?_, ?_⟩
      · simp [get_protein_by_hgnc_id, hres]
      · intro heq
        exact absurd heq (by simp)
      · intro _
        simp [get_protein_by_hgnc_id, hres]

/-- Counterexample for C8 as stated: on a store holding two isoforms that
share HGNC id "1442", the lookup does log, but the emitted record is at
error severity — no warning-level record is logged. -/
theorem claim_c8_counterexample :
    (get_protein_by_hgnc_id [cIsoA, cIsoB] "1442").2 ≠ [] ∧
    ((get_protein_by_hgnc_id [cIsoA, cIsoB] "1442").2.all
      fun m => m.level != LogLevel.warning) = true := by
  have h : (get_protein_by_hgnc_id [cIsoA, cIsoB] "1442").2 =
      [{ level := .error, text := isoformLogText "1442" [cIsoA, cIsoB] }] := rfl
  rw [h]
  exact ⟨by simp, rfl⟩

/-- Witness for C8: the amended behavior on the concrete two-isoform store
and on the empty store. -/
theorem claim_c8_witness :
    ((get_protein_by_hgnc_id [cIsoA, cIsoB] "1442").1 = some cIsoA ∧
      ([cIsoB] = [] → (get_protein_by_hgnc_id [cIsoA, cIsoB] "1442").2 = []) ∧
      ([cIsoB] ≠ [] →
        (get_protein_by_hgnc_id [cIsoA, cIsoB] "1442").2 =
          [{ level := .error, text := isoformLogText "1442" (cIsoA :: [cIsoB]) }])) ∧
    get_protein_by_hgnc_id [] "1442" = (none, []) :=
  ⟨(claim_c8_isoform_lookup [cIsoA, cIsoB] "1442").2 cIsoA [cIsoB] (by rfl),
   (claim_c8_isoform_lookup [] "1442").1 (by rfl)⟩

/-- The article loop of `_add_to_graph` on a fresh batch of distinct
citations appends exactly one edge per article, in order. -/
theorem addLoop_edges (u v : BelNode) :
    ∀ (arts : List MArticle) (g : BelGraph) (acc : Finset Edge),
      (arts.map MArticle.pubmed_id).Nodup →
      (∀ a ∈ arts, mkEdge u v a.pubmed_id ∉ g.edges) →
      (arts.foldl (addArticleEdge u v) (acc, g)).2.edges =
        g.edges ++ arts.map (fun a => mkEdge u v a.pubmed_id) := by
  intro arts
  induction arts with
  | nil =>
    intro g acc _ _
    simp
  | cons a rest ih =>
    intro g acc hnd hni
    simp only [List.foldl_cons]
    have hna : mkEdge u v a.pubmed_id ∉ g.edges := hni a (List.mem_cons_self a rest)
    have hstep : addArticleEdge u v (acc, g) a =
        (insert (mkEdge u v a.pubmed_id) acc, ⟨g.edges ++ [mkEdge u v a.pubmed_id]⟩) := by
      simp [addArticleEdge, addQualifiedEdge, hna]
    rw [hstep]
    have hnd1 : (a.pubmed_id :: rest.map MArticle.pubmed_id).Nodup := by simpa using hnd
    obtain ⟨hmem, hnd2⟩ := List.nodup_cons.1 hnd1
    have hni2 : ∀ b ∈ rest, mkEdge u v b.pubmed_id ∉
        (BelGraph.mk (g.edges ++ [mkEdge u v a.pubmed_id])).edges := by
      intro b hb hmem2
      rcases List.mem_append.1 hmem2 with hg | hsing
      · exact hni b (List.mem_cons_of_mem _ hb) hg
      · have hpm : b.pubmed_id = a.pubmed_id :=
          congrArg Edge.citation (List.mem_singleton.1 hsing)
        exact hmem (hpm ▸ List.mem_map_of_mem MArticle.pubmed_id hb)
    rw [ih _ _ hnd2 hni2]
    simp

/-- C4: projecting an interaction with N associated articles (distinct
PubMed ids, fresh to the graph) emits exactly N directed edges from u to
v, and the citations of the emitted edges are exactly the PubMed ids of the articles;
for N = 0 the appended list is empty, so zero edges are emitted. -/
theorem claim_c4_edge_emission (dpi : MDPI) (g : BelGraph) (u v : BelNode)
    (hnd : (dpi.articles.map MArticle.pubmed_id).Nodup)
    (hfresh : ∀ a ∈ dpi.articles, mkEdge u v a.pubmed_id ∉ g.edges) :
    (dpi._add_to_graph g u v).2.edges =
      g.edges ++ dpi.articles.map (fun a => mkEdge u v a.pubmed_id) ∧
    (dpi._add_to_graph g u v).2.edges.length = g.edges.length + dpi.articles.length ∧
    dpi.articles.map (fun a => (mkEdge u v a.pubmed_id).citation) =
      dpi.articles.map MArticle.pubmed_id := by
  have h : (dpi._add_to_graph g u v).2.edges =
      g.edges ++ dpi.articles.map (fun a => mkEdge u v a.pubmed_id) :=
    addLoop_edges u v dpi.articles g ∅ hnd hfresh
  refine ⟨h, ?_, rfl⟩
  rw [h]
  simp

/-- Witness for C4: two distinct concrete articles on the empty graph give
exactly two edges; the zero-article interaction gives zero. -/
theorem claim_c4_witness :
    ((cMDPI._add_to_graph emptyBelGraph cMDrug.as_bel cMProtein.as_bel).2.edges =
      emptyBelGraph.edges ++
        cMDPI.articles.map (fun a => mkEdge cMDrug.as_bel cMProtein.as_bel a.pubmed_id) ∧
      (cMDPI._add_to_graph emptyBelGraph cMDrug.as_bel cMProtein.as_bel).2.edges.length =
        emptyBelGraph.edges.length + cMDPI.articles.length ∧
      cMDPI.articles.map (fun a => (mkEdge cMDrug.as_bel cMProtein.as_bel a.pubmed_id).citation) =
        cMDPI.articles.map MArticle.pubmed_id) ∧
    ((cMDPInoArticles._add_to_graph emptyBelGraph cMDrug.as_bel cMProtein.as_bel).2.edges =
      emptyBelGraph.edges ++
        cMDPInoArticles.articles.map
          (fun a => mkEdge cMDrug.as_bel cMProtein.as_bel a.pubmed_id) ∧
      (cMDPInoArticles._add_to_graph emptyBelGraph cMDrug.as_bel cMProtein.as_bel).2.edges.length =
        emptyBelGraph.edges.length + cMDPInoArticles.articles.length ∧
      cMDPInoArticles.articles.map
          (fun a => (mkEdge cMDrug.as_bel cMProtein.as_bel a.pubmed_id).citation) =
        cMDPInoArticles.articles.map MArticle.pubmed_id) :=
  ⟨claim_c4_edge_emission cMDPI emptyBelGraph cMDrug.as_bel cMProtein.as_bel
      (by decide) (by simp [emptyBelGraph]),
   claim_c4_edge_emission cMDPInoArticles emptyBelGraph cMDrug.as_bel cMProtein.as_bel
      (by decide) (by simp [emptyBelGraph])⟩

/-- Every edge present after the article loop was already in the graph or
is one of u-to-v edges of the loop itself. -/
theorem addLoop_mem (u v : BelNode) :
    ∀ (arts : List MArticle) (g : BelGraph) (acc : Finset Edge) (e : Edge),
      e ∈ (arts.foldl (addArticleEdge u v) (acc, g)).2.edges →
      e ∈ g.edges ∨ ∃ a ∈ arts, e = mkEdge u v a.pubmed_id := by
  intro arts
  induction arts with
  | nil =>
    intro g acc e he
    exact Or.inl (by simpa using he)
  | cons a rest ih =>
    intro g acc e he
    simp only [List.foldl_cons] at he
    by_cases hmem : mkEdge u v a.pubmed_id ∈ g.edges
    · have hstep : addArticleEdge u v (acc, g) a = (insert (mkEdge u v a.pubmed_id) acc, g) := by
        simp [addArticleEdge, addQualifiedEdge, hmem]
      rw [hstep] at he
      rcases ih _ _ _ he with hg | ⟨b, hb, hbe⟩
      · exact Or.inl hg
      · exact Or.inr ⟨b, List.mem_cons_of_mem _ hb, hbe⟩
    · have hstep : addArticleEdge u v (acc, g) a =
          (insert (mkEdge u v a.pubmed_id) acc, ⟨g.edges ++ [mkEdge u v a.pubmed_id]⟩) := by
        simp [addArticleEdge, addQualifiedEdge, hmem]
      rw [hstep] at he
      rcases ih _ _ _ he with hg | ⟨b, hb, hbe⟩
      · rcases List.mem_append.1 hg with h1 | h2
        · exact Or.inl h1
        · exact Or.inr ⟨a, List.mem_cons_self _ _, List.mem_singleton.1 h2⟩
      · exact Or.inr ⟨b, List.mem_cons_of_mem _ hb, hbe⟩

/-- C5 (amended): `add_to_graph` always serializes the protein endpoint
through `Protein.as_bel`, i.e. with a UniProt-namespace identity carrying
the uniprot_id of the protein — also when the protein has a non-null HGNC id.
The HGNC serialization `as_bel_hgnc` exists but is not used here. -/
theorem claim_c5_protein_endpoint :
    (∀ (dpi : MDPI) (g : BelGraph) (e : Edge),
        e ∈ (dpi.add_to_graph g).2.edges →
        e ∈ g.edges ∨
          (e.u = dpi.drug.as_bel ∧ e.v = dpi.protein.as_bel ∧
            e.v.ns = "uniprot" ∧ e.v.identifier = dpi.protein.uniprot_id)) ∧
    (∀ p : MProtein, p.as_bel.ns = "uniprot" ∧ p.as_bel_hgnc.ns = "hgnc") := by
  refine ⟨?_, fun p => ⟨rfl, rfl⟩⟩
  intro dpi g e he
  rcases addLoop_mem dpi.drug.as_bel dpi.protein.as_bel dpi.articles g ∅ e he with
    hg | ⟨a, _, hae⟩
  · exact Or.inl hg
  · subst hae
    exact Or.inr ⟨rfl, rfl, rfl, rfl⟩

/-- Counterexample for C5 as stated: a protein with a non-null HGNC id is
still projected with a UniProt-namespace node, not an HGNC-based one. -/
theorem claim_c5_counterexample :
    cMDPI.protein.hgnc_id = some "3535" ∧
    (cMDPI.add_to_graph emptyBelGraph).2.edges =
      [mkEdge cMDrug.as_bel cMProtein.as_bel "10505536",
       mkEdge cMDrug.as_bel cMProtein.as_bel "10912644"] ∧
    cMProtein.as_bel.ns = "uniprot" ∧
    cMProtein.as_bel.ns ≠ "hgnc" ∧
    cMProtein.as_bel ≠ cMProtein.as_bel_hgnc :=
  ⟨rfl, rfl, rfl, by decide, by decide⟩

/-- Witness for C5: the first emitted edge of the concrete projection has
the UniProt-based protein endpoint. -/
theorem claim_c5_witness :
    (mkEdge cMDrug.as_bel cMProtein.as_bel "10505536" ∈ emptyBelGraph.edges ∨
      ((mkEdge cMDrug.as_bel cMProtein.as_bel "10505536").u = cMDPI.drug.as_bel ∧
        (mkEdge cMDrug.as_bel cMProtein.as_bel "10505536").v = cMDPI.protein.as_bel ∧
        (mkEdge cMDrug.as_bel cMProtein.as_bel "10505536").v.ns = "uniprot" ∧
        (mkEdge cMDrug.as_bel cMProtein.as_bel "10505536").v.identifier =
          cMDPI.protein.uniprot_id)) ∧
    (cMProtein.as_bel.ns = "uniprot" ∧ cMProtein.as_bel_hgnc.ns = "hgnc") :=
  ⟨claim_c5_protein_endpoint.1 cMDPI emptyBelGraph
      (mkEdge cMDrug.as_bel cMProtein.as_bel "10505536") (by decide),
   claim_c5_protein_endpoint.2 cMProtein⟩

theorem goc_type_idem (s : MState) (k : Option String) (h1 : Nat) (s1 : MState)
    (hc : get_or_create_type s k = .ok (h1, s1)) :
    get_or_create_type s1 k = .ok (h1, s1) ∧
    (s1.pending.filterMap pendingTypeKey).count k ≤
      (s.pending.filterMap pendingTypeKey).count k + 1 := by
  unfold get_or_create_type at hc
  split at hc
  case h_1 m hm =>
    simp only [Except.ok.injEq, Prod.mk.injEq] at hc
    obtain ⟨hm1, hs1⟩ := hc
    subst hm1
    subst hs1
    refine ⟨?_, Nat.le_succ_of_le (Nat.le_refl _)⟩
    unfold get_or_create_type
    rw [hm]
  case h_2 hm =>
    split at hc
    · exact absurd hc (by simp)
    case h_2 r hr =>
      simp only [Except.ok.injEq, Prod.mk.injEq] at hc
      obtain ⟨hm1, hs1⟩ := hc
      subst hm1
      subst hs1
      refine ⟨?_, Nat.le_succ_of_le (Nat.le_refl _)⟩
      unfold get_or_create_type
      simp [List.lookup]
    case h_3 hr =>
      simp only [Except.ok.injEq, Prod.mk.injEq] at hc
      obtain ⟨hm1, hs1⟩ := hc
      subst hm1
      subst hs1
      constructor
      · unfold get_or_create_type
        simp [List.lookup]
      · simp [pendingTypeKey, List.filterMap_append, List.count_append, List.count_cons]

theorem goc_group_idem (s : MState) (k : Option String) (h1 : Nat) (s1 : MState)
    (hc : get_or_create_group s k = .ok (h1, s1)) :
    get_or_create_group s1 k = .ok (h1, s1) ∧
    (s1.pending.filterMap pendingGroupKey).count k ≤
      (s.pending.filterMap pendingGroupKey).count k + 1 := by
  unfold get_or_create_group at hc
  split at hc
  case h_1 m hm =>
    simp only [Except.ok.injEq, Prod.mk.injEq] at hc
    obtain ⟨hm1, hs1⟩ := hc
    subst hm1
    subst hs1
    refine ⟨?_, Nat.le_succ_of_le (Nat.le_refl _)⟩
    unfold get_or_create_group
    rw [hm]
  case h_2 hm =>
    split at hc
    · exact absurd hc (by simp)
    case h_2 r hr =>
      simp only [Except.ok.injEq, Prod.mk.injEq] at hc
      obtain ⟨hm1, hs1⟩ := hc
      subst hm1
      subst hs1
      refine ⟨?_, Nat.le_succ_of_le (Nat.le_refl _)⟩
      unfold get_or_create_group
      simp [List.lookup]
    case h_3 hr =>
      simp only [Except.ok.injEq, Prod.mk.injEq] at hc
      obtain ⟨hm1, hs1⟩ := hc
      subst hm1
      subst hs1
      constructor
      · unfold get_or_create_group
        simp [List.lookup]
      · simp [pendingGroupKey, List.filterMap_append, List.count_append, List.count_cons]

theorem goc_species_idem (s : MState) (k : Option String) (t : String) (h1 : Nat) (s1 : MState)
    (hc : get_or_create_species s k t = .ok (h1, s1)) :
    (∀ t2 : String, get_or_create_species s1 k t2 = .ok (h1, s1)) ∧
    (s1.pending.filterMap pendingSpeciesKey).count k ≤
      (s.pending.filterMap pendingSpeciesKey).count k + 1 := by
  unfold get_or_create_species at hc
  split at hc
  case h_1 m hm =>
    simp only [Except.ok.injEq, Prod.mk.injEq] at hc
    obtain ⟨hm1, hs1⟩ := hc
    subst hm1
    subst hs1
    refine ⟨?_, Nat.le_succ_of_le (Nat.le_refl _)⟩
    intro t2
    unfold get_or_create_species
    rw [hm]
  case h_2 hm =>
    split at hc
    · exact absurd hc (by simp)
    case h_2 r hr =>
      simp only [Except.ok.injEq, Prod.mk.injEq] at hc
      obtain ⟨hm1, hs1⟩ := hc
      subst hm1
      subst hs1
      refine ⟨?_, Nat.le_succ_of_le (Nat.le_refl _)⟩
      intro t2
      unfold get_or_create_species
      simp [List.lookup]
    case h_3 hr =>
      simp only [Except.ok.injEq, Prod.mk.injEq] at hc
      obtain ⟨hm1, hs1⟩ := hc
      subst hm1
      subst hs1
      constructor
      · intro t2
        unfold get_or_create_species
        simp [List.lookup]
      · simp [pendingSpeciesKey, List.filterMap_append, List.count_append, List.count_cons]

theorem goc_category_idem (s : MState) (k : Option String) (mesh : Option String)
    (h1 : Nat) (s1 : MState)
    (hc : get_or_create_category s k mesh = .ok (h1, s1)) :
    (∀ mesh2 : Option String, get_or_create_category s1 k mesh2 = .ok (h1, s1)) ∧
    (s1.pending.filterMap pendingCategoryKey).count k ≤
      (s.pending.filterMap pendingCategoryKey).count k + 1 := by
  unfold get_or_create_category at hc
  split at hc
  case h_1 m hm =>
    simp only [Except.ok.injEq, Prod.mk.injEq] at hc
    obtain ⟨hm1, hs1⟩ := hc
    subst hm1
    subst hs1
    refine ⟨?_, Nat.le_succ_of_le (Nat.le_refl _)⟩
    intro mesh2
    unfold get_or_create_category
    rw [hm]
  case h_2 hm =>
    split at hc
    · exact absurd hc (by simp)
    case h_2 r hr =>
      simp only [Except.ok.injEq, Prod.mk.injEq] at hc
      obtain ⟨hm1, hs1⟩ := hc
      subst hm1
      subst hs1
      refine ⟨?_, Nat.le_succ_of_le (Nat.le_refl _)⟩
      intro mesh2
      unfold get_or_create_category
      simp [List.lookup]
    case h_3 hr =>
      simp only [Except.ok.injEq, Prod.mk.injEq] at hc
      obtain ⟨hm1, hs1⟩ := hc
      subst hm1
      subst hs1
      constructor
      · intro mesh2
        unfold get_or_create_category
        simp [List.lookup]
      · simp [pendingCategoryKey, List.filterMap_append, List.count_append, List.count_cons]

theorem goc_patent_idem (s : MState) (country patent_id : Option String)
    (approved expires : String) (ped : Bool) (h1 : Nat) (s1 : MState)
    (hc : get_or_create_patent s country patent_id approved expires ped = .ok (h1, s1)) :
    (∀ (a2 e2 : String) (p2 : Bool),
      get_or_create_patent s1 country patent_id a2 e2 p2 = .ok (h1, s1)) ∧
    (s1.pending.filterMap pendingPatentKey).count (country, patent_id) ≤
      (s.pending.filterMap pendingPatentKey).count (country, patent_id) + 1 := by
  unfold get_or_create_patent at hc
  split at hc
  case h_1 m hm =>
    simp only [Except.ok.injEq, Prod.mk.injEq] at hc
    obtain ⟨hm1, hs1⟩ := hc
    subst hm1
    subst hs1
    refine ⟨?_, Nat.le_succ_of_le (Nat.le_refl _)⟩
    intro a2 e2 p2
    unfold get_or_create_patent
    rw [hm]
  case h_2 hm =>
    split at hc
    · exact absurd hc (by simp)
    case h_2 r hr =>
      simp only [Except.ok.injEq, Prod.mk.injEq] at hc
      obtain ⟨hm1, hs1⟩ := hc
      subst hm1
      subst hs1
      refine ⟨?_, Nat.le_succ_of_le (Nat.le_refl _)⟩
      intro a2 e2 p2
      unfold get_or_create_patent
      simp [List.lookup]
    case h_3 hr =>
      simp only [Except.ok.injEq, Prod.mk.injEq] at hc
      obtain ⟨hm1, hs1⟩ := hc
      subst hm1
      subst hs1
      constructor
      · intro a2 e2 p2
        unfold get_or_create_patent
        simp [List.lookup]
      · simp [pendingPatentKey, List.filterMap_append, List.count_append, List.count_cons]

theorem goc_protein_idem (s : MState) (u : Option String) (nm acc : Option String)
    (sp : Nat) (hg hs : Option String) (h1 : Nat) (s1 : MState)
    (hc : get_or_create_protein s u nm acc sp hg hs = .ok (h1, s1)) :
    (∀ (nm2 acc2 : Option String) (sp2 : Nat) (hg2 hs2 : Option String),
      get_or_create_protein s1 u nm2 acc2 sp2 hg2 hs2 = .ok (h1, s1)) ∧
    (s1.pending.filterMap pendingProteinKey).count u ≤
      (s.pending.filterMap pendingProteinKey).count u + 1 := by
  unfold get_or_create_protein at hc
  split at hc
  case h_1 m hm =>
    simp only [Except.ok.injEq, Prod.mk.injEq] at hc
    obtain ⟨hm1, hs1⟩ := hc
    subst hm1
    subst hs1
    refine ⟨?_, Nat.le_succ_of_le (Nat.le_refl _)⟩
    intro nm2 acc2 sp2 hg2 hs2
    unfold get_or_create_protein
    rw [hm]
  case h_2 hm =>
    split at hc
    · exact absurd hc (by simp)
    case h_2 r hr =>
      simp only [Except.ok.injEq, Prod.mk.injEq] at hc
      obtain ⟨hm1, hs1⟩ := hc
      subst hm1
      subst hs1
      refine ⟨?_, Nat.le_succ_of_le (Nat.le_refl _)⟩
      intro nm2 acc2 sp2 hg2 hs2
      unfold get_or_create_protein
      simp [List.lookup]
    case h_3 hr =>
      simp only [Except.ok.injEq, Prod.mk.injEq] at hc
      obtain ⟨hm1, hs1⟩ := hc
      subst hm1
      subst hs1
      constructor
      · intro nm2 acc2 sp2 hg2 hs2
        unfold get_or_create_protein
        simp [List.lookup]
      · simp [pendingProteinKey, List.filterMap_append, List.count_append, List.count_cons]

theorem goc_action_idem (s : MState) (k : String) (h1 : Nat) (s1 : MState)
    (hc : get_or_create_action s k = .ok (h1, s1)) :
    get_or_create_action s1 k = .ok (h1, s1) ∧
    (s1.pending.filterMap pendingActionKey).count k ≤
      (s.pending.filterMap pendingActionKey).count k + 1 := by
  unfold get_or_create_action at hc
  split at hc
  case h_1 m hm =>
    simp only [Except.ok.injEq, Prod.mk.injEq] at hc
    obtain ⟨hm1, hs1⟩ := hc
    subst hm1
    subst hs1
    refine ⟨?_, Nat.le_succ_of_le (Nat.le_refl _)⟩
    unfold get_or_create_action
    rw [hm]
  case h_2 hm =>
    split at hc
    · exact absurd hc (by simp)
    case h_2 r hr =>
      simp only [Except.ok.injEq, Prod.mk.injEq] at hc
      obtain ⟨hm1, hs1⟩ := hc
      subst hm1
      subst hs1
      refine ⟨?_, Nat.le_succ_of_le (Nat.le_refl _)⟩
      unfold get_or_create_action
      simp [List.lookup]
    case h_3 hr =>
      simp only [Except.ok.injEq, Prod.mk.injEq] at hc
      obtain ⟨hm1, hs1⟩ := hc
      subst hm1
      subst hs1
      constructor
      · unfold get_or_create_action
        simp [List.lookup]
      · simp [pendingActionKey, List.filterMap_append, List.count_append, List.count_cons]

theorem goc_article_idem (s : MState) (k : String) (h1 : Nat) (s1 : MState)
    (hc : get_or_create_article s k = .ok (h1, s1)) :
    get_or_create_article s1 k = .ok (h1, s1) ∧
    (s1.pending.filterMap pendingArticleKey).count k ≤
      (s.pending.filterMap pendingArticleKey).count k + 1 := by
  unfold get_or_create_article at hc
  split at hc
  case h_1 m hm =>
    simp only [Except.ok.injEq, Prod.mk.injEq] at hc
    obtain ⟨hm1, hs1⟩ := hc
    subst hm1
    subst hs1
    refine ⟨?_, Nat.le_succ_of_le (Nat.le_refl _)⟩
    unfold get_or_create_article
    rw [hm]
  case h_2 hm =>
    split at hc
    · exact absurd hc (by simp)
    case h_2 r hr =>
      simp only [Except.ok.injEq, Prod.mk.injEq] at hc
      obtain ⟨hm1, hs1⟩ := hc
      subst hm1
      subst hs1
      refine ⟨?_, Nat.le_succ_of_le (Nat.le_refl _)⟩
      unfold get_or_create_article
      simp [List.lookup]
    case h_3 hr =>
      simp only [Except.ok.injEq, Prod.mk.injEq] at hc
      obtain ⟨hm1, hs1⟩ := hc
      subst hm1
      subst hs1
      constructor
      · unfold get_or_create_article
        simp [List.lookup]
      · simp [pendingArticleKey, List.filterMap_append, List.count_append, List.count_cons]

/-- C2: every get-or-create reconciliation operation (type, group, species,
category, patent by composite key, protein by UniProt id, action, article)
is idempotent within one run: a repeated call with the same natural key
(whatever the other constructor arguments) returns the identical handle
and the identical state, and one call adds at most one pending entity with
that natural key to the session. -/
theorem claim_c2_reconciliation_idempotent :
    (∀ (s : MState) (k : Option String) (h1 : Nat) (s1 : MState),
      get_or_create_type s k = .ok (h1, s1) →
        get_or_create_type s1 k = .ok (h1, s1) ∧
        (s1.pending.filterMap pendingTypeKey).count k ≤
          (s.pending.filterMap pendingTypeKey).count k + 1) ∧
    (∀ (s : MState) (k : Option String) (h1 : Nat) (s1 : MState),
      get_or_create_group s k = .ok (h1, s1) →
        get_or_create_group s1 k = .ok (h1, s1) ∧
        (s1.pending.filterMap pendingGroupKey).count k ≤
          (s.pending.filterMap pendingGroupKey).count k + 1) ∧
    (∀ (s : MState) (k : Option String) (t : String) (h1 : Nat) (s1 : MState),
      get_or_create_species s k t = .ok (h1, s1) →
        (∀ t2 : String, get_or_create_species s1 k t2 = .ok (h1, s1)) ∧
        (s1.pending.filterMap pendingSpeciesKey).count k ≤
          (s.pending.filterMap pendingSpeciesKey).count k + 1) ∧
    (∀ (s : MState) (k mesh : Option String) (h1 : Nat) (s1 : MState),
      get_or_create_category s k mesh = .ok (h1, s1) →
        (∀ mesh2 : Option String, get_or_create_category s1 k mesh2 = .ok (h1, s1)) ∧
        (s1.pending.filterMap pendingCategoryKey).count k ≤
          (s.pending.filterMap pendingCategoryKey).count k + 1) ∧
    (∀ (s : MState) (country patent_id : Option String) (approved expires : String)
        (ped : Bool) (h1 : Nat) (s1 : MState),
      get_or_create_patent s country patent_id approved expires ped = .ok (h1, s1) →
        (∀ (a2 e2 : String) (p2 : Bool),
          get_or_create_patent s1 country patent_id a2 e2 p2 = .ok (h1, s1)) ∧
        (s1.pending.filterMap pendingPatentKey).count (country, patent_id) ≤
          (s.pending.filterMap pendingPatentKey).count (country, patent_id) + 1) ∧
    (∀ (s : MState) (u nm acc : Option String) (sp : Nat) (hg hs : Option String)
        (h1 : Nat) (s1 : MState),
      get_or_create_protein s u nm acc sp hg hs = .ok (h1, s1) →
        (∀ (nm2 acc2 : Option String) (sp2 : Nat) (hg2 hs2 : Option String),
          get_or_create_protein s1 u nm2 acc2 sp2 hg2 hs2 = .ok (h1, s1)) ∧
        (s1.pending.filterMap pendingProteinKey).count u ≤
          (s.pending.filterMap pendingProteinKey).count u + 1) ∧
    (∀ (s : MState) (k : String) (h1 : Nat) (s1 : MState),
      get_or_create_action s k = .ok (h1, s1) →
        get_or_create_action s1 k = .ok (h1, s1) ∧
        (s1.pending.filterMap pendingActionKey).count k ≤
          (s.pending.filterMap pendingActionKey).count k + 1) ∧
    (∀ (s : MState) (k : String) (h1 : Nat) (s1 : MState),
      get_or_create_article s k = .ok (h1, s1) →
        get_or_create_article s1 k = .ok (h1, s1) ∧
        (s1.pending.filterMap pendingArticleKey).count k ≤
          (s.pending.filterMap pendingArticleKey).count k + 1) :=
  ⟨goc_type_idem, goc_group_idem,
   fun s k t h1 s1 hc => goc_species_idem s k t h1 s1 hc,
   fun s k mesh h1 s1 hc => goc_category_idem s k mesh h1 s1 hc,
   fun s c p a e pd h1 s1 hc => goc_patent_idem s c p a e pd h1 s1 hc,
   fun s u nm acc sp hg hs h1 s1 hc => goc_protein_idem s u nm acc sp hg hs h1 s1 hc,
   goc_action_idem, goc_article_idem⟩

/-- Witness for C2: a concrete first call on the empty state for each of
the eight entity kinds, followed by the guaranteed identical second call
(with different auxiliary constructor arguments where the kind has them). -/
theorem claim_c2_witness :
    (get_or_create_type mT1 (some "biotech") = .ok (0, mT1) ∧
      (mT1.pending.filterMap pendingTypeKey).count (some "biotech") ≤
        (mEmpty.pending.filterMap pendingTypeKey).count (some "biotech") + 1) ∧
    (get_or_create_group mG1 (some "approved") = .ok (0, mG1) ∧
      (mG1.pending.filterMap pendingGroupKey).count (some "approved") ≤
        (mEmpty.pending.filterMap pendingGroupKey).count (some "approved") + 1) ∧
    (get_or_create_species mS1 (some "Humans") "0000" = .ok (0, mS1) ∧
      (mS1.pending.filterMap pendingSpeciesKey).count (some "Humans") ≤
        (mEmpty.pending.filterMap pendingSpeciesKey).count (some "Humans") + 1) ∧
    (get_or_create_category mC1 (some "Antibodies") (some "D000906") = .ok (0, mC1) ∧
      (mC1.pending.filterMap pendingCategoryKey).count (some "Antibodies") ≤
        (mEmpty.pending.filterMap pendingCategoryKey).count (some "Antibodies") + 1) ∧
    (get_or_create_patent mP1 (some "United States") (some "5972916") "x" "y" false =
        .ok (0, mP1) ∧
      (mP1.pending.filterMap pendingPatentKey).count (some "United States", some "5972916") ≤
        (mEmpty.pending.filterMap pendingPatentKey).count
          (some "United States", some "5972916") + 1) ∧
    (get_or_create_protein mPr1 (some "P00734") none none 9 none none = .ok (0, mPr1) ∧
      (mPr1.pending.filterMap pendingProteinKey).count (some "P00734") ≤
        (mEmpty.pending.filterMap pendingProteinKey).count (some "P00734") + 1) ∧
    (get_or_create_action mA1 "inhibitor" = .ok (0, mA1) ∧
      (mA1.pending.filterMap pendingActionKey).count "inhibitor" ≤
        (mEmpty.pending.filterMap pendingActionKey).count "inhibitor" + 1) ∧
    (get_or_create_article mAr1 "10505536" = .ok (0, mAr1) ∧
      (mAr1.pending.filterMap pendingArticleKey).count "10505536" ≤
        (mEmpty.pending.filterMap pendingArticleKey).count "10505536" + 1) := by
  have h1 := claim_c2_reconciliation_idempotent.1 mEmpty (some "biotech") 0 mT1 (by rfl)
  have h2 := claim_c2_reconciliation_idempotent.2.1 mEmpty (some "approved") 0 mG1 (by rfl)
  have h3 := claim_c2_reconciliation_idempotent.2.2.1 mEmpty (some "Humans") "9606" 0 mS1 (by rfl)
  have h4 := claim_c2_reconciliation_idempotent.2.2.2.1 mEmpty (some "Antibodies") none 0 mC1
    (by rfl)
  have h5 := claim_c2_reconciliation_idempotent.2.2.2.2.1 mEmpty (some "United States")
    (some "5972916") "1997-10-28" "2017-10-28" true 0 mP1 (by rfl)
  have h6 := claim_c2_reconciliation_idempotent.2.2.2.2.2.1 mEmpty (some "P00734")
    (some "Prothrombin") none 7 (some "3535") (some "F2") 0 mPr1 (by rfl)
  have h7 := claim_c2_reconciliation_idempotent.2.2.2.2.2.2.1 mEmpty "inhibitor" 0 mA1 (by rfl)
  have h8 := claim_c2_reconciliation_idempotent.2.2.2.2.2.2.2 mEmpty "10505536" 0 mAr1 (by rfl)
  exact ⟨⟨h1.1, h1.2⟩, ⟨h2.1, h2.2⟩, ⟨h3.1 "0000", h3.2⟩, ⟨h4.1 (some "D000906"), h4.2⟩,
    ⟨h5.1 "x" "y" false, h5.2⟩, ⟨h6.1 none none 9 none none, h6.2⟩, ⟨h7.1, h7.2⟩, ⟨h8.1, h8.2⟩⟩

theorem extractInteractions_length :
    ∀ (l : List (String × Xml)) (rows : List ProteinRow),
      extractInteractions l = .ok rows → rows.length = l.length := by
  intro l
  induction l with
  | nil =>
    intro rows h
    simp only [extractInteractions, Except.ok.injEq] at h
    subst h
    rfl
  | cons cp rest ih =>
    intro rows h
    obtain ⟨c, p⟩ := cp
    unfold extractInteractions at h
    split at h
    · exact absurd h (by simp)
    split at h
    · exact absurd h (by simp)
    next row hrow rows2 hrows2 =>
      simp only [Except.ok.injEq] at h
      subst h
      simp [ProteinRow.toBool, ih rows2 hrows2]

theorem createForPolys_length :
    ∀ (polys : List PolypeptideRow) (s : MState) (drug : Nat) (target : TargetRow)
      (out : MState × List CreatedDPI),
      createForPolys s drug target polys = .ok out → out.2.length = polys.length := by
  intro polys
  induction polys with
  | nil =>
    intro s drug target out h
    simp only [createForPolys, Except.ok.injEq] at h
    subst h
    rfl
  | cons poly rest ih =>
    intro s drug target out h
    unfold createForPolys at h
    split at h
    · exact absurd h (by simp)
    split at h
    · exact absurd h (by simp)
    next s3 dpis hdpis =>
      simp only [Except.ok.injEq] at h
      subst h
      simp [ih _ _ _ _ hdpis]

theorem createInteractions_length :
    ∀ (rows : List ProteinRow) (s : MState) (drug : Nat) (out : MState × List CreatedDPI),
      createInteractions s drug rows = .ok out →
      out.2.length = (rows.map fun row => row.polypeptides.length).sum := by
  intro rows
  induction rows with
  | nil =>
    intro s drug out h
    simp only [createInteractions, Except.ok.injEq] at h
    subst h
    rfl
  | cons row rest ih =>
    intro s drug out h
    unfold createInteractions at h
    split at h
    · exact absurd h (by simp)
    next s2 dpis1 hdpis1 =>
      split at h
      · exact absurd h (by simp)
      next s3 dpis2 hdpis2 =>
        simp only [Except.ok.injEq] at h
        subst h
        simp [createForPolys_length _ _ _ _ _ hdpis1, ih _ _ _ hdpis2]

/-- C1 (amended): nothing is dropped over a missing UniProt identifier.
Extraction keeps one protein-interaction row per
target/enzyme/carrier/transporter entry (the truthiness guard never
fires), and the populate loop produces exactly one DrugProteinInteraction
per (entry x polypeptide) pair — whether or not the polypeptide carries a
UniProt cross-reference. -/
theorem claim_c1_interaction_counts :
    (∀ (x : Xml) (r : DrugRow), extract_drug_info x = .ok r →
      r.protein_interactions.length = (_iterate_protein_stuff x).length) ∧
    (∀ (s : MState) (drug : Nat) (rows : List ProteinRow) (out : MState × List CreatedDPI),
      createInteractions s drug rows = .ok out →
      out.2.length = (rows.map fun row => row.polypeptides.length).sum) := by
  refine ⟨?_, fun s drug rows out h => createInteractions_length rows s drug out h⟩
  intro x r h
  obtain ⟨-, patents, ts, pis, -, -, hpis, hr⟩ := extract_drug_info_ok_inv x r h
  subst hr
  exact extractInteractions_length _ _ hpis

/-- Counterexample for C1 as stated: a target entry whose sole polypeptide
has an HGNC cross-reference but no UniProt one is not dropped; it yields a
stored interaction row (with a None uniprot id), where the claim demanded
zero rows for that entry. -/
theorem claim_c1_counterexample :
    (extract_drug_info cDrugNoUniprot).map
        (fun r => r.protein_interactions.map
          fun row => row.polypeptides.map PolypeptideRow.uniprot_id) = .ok [[none]] ∧
    ((extract_drug_info cDrugNoUniprot).bind
        fun r => createInteractions mEmpty 0 r.protein_interactions).map
      (fun out => out.2.length) = .ok 1 :=
  ⟨rfl, rfl⟩

/-- Witness for C1: the concrete UniProt-less drug element keeps its one
entry, and creation over its one-row one-polypeptide extraction yields one
interaction. -/
theorem claim_c1_witness :
    (mkDrugRow cDrugNoUniprot [] [] [cProtRowNoUP]).protein_interactions.length =
      (_iterate_protein_stuff cDrugNoUniprot).length ∧
    ((cS1NoUP, [cDpiNoUP]) : MState × List CreatedDPI).2.length =
      ([cProtRowNoUP].map fun row => row.polypeptides.length).sum :=
  ⟨claim_c1_interaction_counts.1 cDrugNoUniprot (mkDrugRow cDrugNoUniprot [] [] [cProtRowNoUP])
      (by rfl),
   claim_c1_interaction_counts.2 mEmpty 0 [cProtRowNoUP] (cS1NoUP, [cDpiNoUP]) (by rfl)⟩

theorem mapE_ok_of_all {α β : Type} (f : α → Except PyErr β) :
    ∀ l : List α, (∀ a ∈ l, ∃ b, f a = .ok b) → ∃ bs, mapE f l = .ok bs := by
  intro l
  induction l with
  | nil =>
    intro _
    exact ⟨[], rfl⟩
  | cons a rest ih =>
    intro hall
    obtain ⟨b, hb⟩ := hall a (List.mem_cons_self _ _)
    obtain ⟨bs, hbs⟩ := ih fun a2 ha2 => hall a2 (List.mem_cons_of_mem _ ha2)
    exact ⟨b :: bs, by unfold mapE; rw [hb, hbs]⟩

theorem extractPatent_ok (p : Xml) (h : patentDatesOk p = true) :
    ∃ row, extractPatent p = .ok row := by
  unfold patentDatesOk at h
  rw [Bool.and_eq_true] at h
  obtain ⟨h1, h2⟩ := h
  split at h1
  next a ha =>
    split at h2
    next e he =>
      cases hres : extractPatent p with
      | ok row => exact ⟨row, rfl⟩
      | error err =>
        unfold extractPatent at hres
        simp [ha, he, strptime, h1, h2] at hres
    next => exact absurd h2 (by simp)
  next => exact absurd h1 (by simp)

theorem extractPolypeptide_ok (p : Xml)
    (h1 : (p.findtextSteps hgncIdPath).isSome = true)
    (h2 : polyOrganismOk p = true) :
    ∃ row, extractPolypeptide p = .ok row := by
  obtain ⟨t, ht⟩ := Option.isSome_iff_exists.1 h1
  unfold polyOrganismOk at h2
  split at h2
  next org horg =>
    obtain ⟨tax, htax⟩ := Option.isSome_iff_exists.1 h2
    cases hres : extractPolypeptide p with
    | ok row => exact ⟨row, rfl⟩
    | error err =>
      unfold extractPolypeptide at hres
      simp [ht, horg, htax] at hres
  next =>
    exact absurd h2 (by simp)

theorem extract_protein_info_ok (c : String) (p : Xml)
    (hall : ∀ poly ∈ p.findallSteps [.tag "polypeptide"],
      ∃ row, extractPolypeptide poly = .ok row) :
    ∃ row, extract_protein_info c p = .ok row := by
  obtain ⟨polys, hpolys⟩ := mapE_ok_of_all extractPolypeptide _ hall
  cases hres : extract_protein_info c p with
  | ok row => exact ⟨row, rfl⟩
  | error err =>
    unfold extract_protein_info at hres
    simp [hpolys] at hres

theorem extractInteractions_ok :
    ∀ l : List (String × Xml),
      (∀ cp ∈ l, ∃ row, extract_protein_info cp.1 cp.2 = .ok row) →
      ∃ rows, extractInteractions l = .ok rows := by
  intro l
  induction l with
  | nil =>
    intro _
    exact ⟨[], rfl⟩
  | cons cp rest ih =>
    intro hall
    obtain ⟨c, p⟩ := cp
    obtain ⟨row, hrow⟩ := hall (c, p) (List.mem_cons_self _ _)
    obtain ⟨rows, hrows⟩ := ih fun cp2 hcp2 => hall cp2 (List.mem_cons_of_mem _ hcp2)
    refine ⟨row :: rows, ?_⟩
    unfold extractInteractions
    rw [hrow, hrows]
    simp [ProteinRow.toBool]

/-- C3 (amended): extraction of a well-tagged drug element raises no
exception as long as the fields the code dereferences unconditionally are
present and decodable — every patent has both date texts and they decode
under the year-month-day format, every alias source element has a text,
and every polypeptide has an HGNC cross-reference and an organism element
carrying the taxonomy attribute.  All remaining optional fields may be
absent and simply yield absent or empty values. -/
theorem claim_c3_missing_optional_fields (x : Xml)
    (htag : x.tagName = "drug")
    (hpat : ∀ p ∈ x.findallSteps [.tag "patents", .tag "patent"], patentDatesOk p = true)
    (halias : ∀ e ∈ aliasElems x, e.text.isSome = true)
    (hpoly : ∀ cp ∈ _iterate_protein_stuff x,
      ∀ poly ∈ cp.2.findallSteps [.tag "polypeptide"],
        (poly.findtextSteps hgncIdPath).isSome = true ∧ polyOrganismOk poly = true) :
    (extract_drug_info x).toOption.isSome = true := by
  obtain ⟨patents, hpatents⟩ := mapE_ok_of_all extractPatent _
    fun p hp => extractPatent_ok p (hpat p hp)
  obtain ⟨ts, hts⟩ := mapE_ok_of_all (fun e => pyReq e.text .attributeError) (aliasElems x)
    (fun e he => by
      obtain ⟨t, ht⟩ := Option.isSome_iff_exists.1 (halias e he)
      exact ⟨t, by simp [pyReq, ht]⟩)
  obtain ⟨pis, hpis⟩ := extractInteractions_ok _
    fun cp hcp => extract_protein_info_ok cp.1 cp.2
      fun poly hp2 => extractPolypeptide_ok poly (hpoly cp hcp poly hp2).1 (hpoly cp hcp poly hp2).2
  unfold extract_drug_info
  rw [if_pos htag, hpatents, hts, hpis]
  rfl

/-- Counterexample for C3 as stated: a patent missing its approved date, a
patent whose approved element is present but empty (an empty date string
fails date decoding), a polypeptide missing its HGNC cross-reference, and
a polypeptide missing its organism element each make extraction raise
instead of yielding an absent value. -/
theorem claim_c3_counterexample :
    extract_drug_info cDrugPatentNoDate = .error .typeError ∧
    extract_drug_info cDrugEmptyDate = .error .valueError ∧
    extract_drug_info cDrugPolyNoHgnc = .error .typeError ∧
    extract_drug_info cDrugPolyNoOrganism = .error .attributeError :=
  ⟨rfl, rfl, rfl, rfl⟩

/-- Witness for C3: the fully populated concrete drug extracts without an
exception. -/
theorem claim_c3_witness : (extract_drug_info cDrugFull).toOption.isSome = true :=
  claim_c3_missing_optional_fields cDrugFull (by rfl) (by decide) (by decide) (by decide)

end DrugBank
